import Mathlib

/-!
Verification development for the calendar-aware period engine of a DHIS2
client library (`dhis2_client/utils/calendar.py` and
`dhis2_client/resources/analytics.py`).

Strings are embedded as lists of characters (`Str`), Python `datetime.date`
values as `Date` records validated by `mkDate` (years 1..9999, exactly the
`datetime` range), and Python exceptions as `Option`/`Except` results.
Collaborator calls of the scanner (system info, dataset linkages,
organisation units, dataValueSets windows) are supplied by a `ScanEnv`
record, and the optional `convertdate` calendar-conversion modules by a
`CalLibs` record of optional conversion capabilities.
-/

abbrev Str := List Char

/-- Value of an ASCII digit character (48 is the code of zero). -/
def digitVal (c : Char) : Nat := c.toNat - 48

/-- ASCII digit test, as matched by the regex digit class on these inputs. -/
def isDigitC (c : Char) : Bool := 48 ≤ c.toNat && c.toNat ≤ 57

/-- All characters are ASCII digits. -/
def isDigits (s : Str) : Bool := s.all isDigitC

/-- Numeric value of a digit string, most significant digit first. -/
def digitsToNat (s : Str) : Nat := s.foldl (fun a c => 10 * a + digitVal c) 0

/-- The character printed for a single decimal digit. -/
def digitChar : Nat → Char
  | 0 => '0' | 1 => '1' | 2 => '2' | 3 => '3' | 4 => '4'
  | 5 => '5' | 6 => '6' | 7 => '7' | 8 => '8' | _ => '9'

/-- Division chain producing the decimal digits of `n`, most significant
first; `fuel` bounds the number of digits (structural recursion so that the
kernel can evaluate it; 30 digits cover every number this code prints). -/
def natDigitsAux (fuel : Nat) (n : Nat) : Str :=
  match fuel with
  | 0 => []
  | fuel + 1 => if n < 10 then [digitChar n] else natDigitsAux fuel (n / 10) ++ [digitChar (n % 10)]

/-- Decimal digits of a number, no padding (Python `str(n)` for `Nat`);
`n + 1` units of fuel always cover all digits of `n`. -/
def natDigits (n : Nat) : Str := natDigitsAux (n + 1) n

/-- Python zero-padded minimum-width formatting, as in a 04d format spec:
pads `natDigits n` with leading zeros up to width `w`, never truncates. -/
def fmtMin (w n : Nat) : Str := List.replicate (w - (natDigits n).length) '0' ++ natDigits n

/-- Decimal rendering of an integer (Python `str(i)`). -/
def intDigits (i : Int) : Str := if i < 0 then '-' :: natDigits i.natAbs else natDigits i.toNat

/-- Python whitespace test used by `str.strip` (ASCII subset). -/
def isSpaceC (c : Char) : Bool := c = ' ' || c = '\t' || c = '\n' || c = '\x0d' || c = '\x0b' || c = '\x0c'

/-- Python `str.strip()`: drop leading and trailing whitespace. -/
def pyStrip (s : Str) : Str := ((s.dropWhile isSpaceC).reverse.dropWhile isSpaceC).reverse

/-- Python `str.upper()` restricted to ASCII letters (the inputs used here). -/
def upperChar (c : Char) : Char := if 97 ≤ c.toNat && c.toNat ≤ 122 then Char.ofNat (c.toNat - 32) else c

/-- Python `str.lower()` restricted to ASCII letters (the inputs used here). -/
def lowerChar (c : Char) : Char := if 65 ≤ c.toNat && c.toNat ≤ 90 then Char.ofNat (c.toNat + 32) else c

def pyUpper (s : Str) : Str := s.map upperChar

def pyLower (s : Str) : Str := s.map lowerChar

/-- Python `int(str)`: strip whitespace, optional sign, decimal digits;
`none` models the `ValueError` raised on any other input.  (Digit-group
underscores, never produced by this code base, are not modelled.) -/
def pyInt (s : Str) : Option Int :=
  let t := pyStrip s
  if t.take 1 = ['-'] then
    if t.drop 1 ≠ [] && isDigits (t.drop 1) then some (-(digitsToNat (t.drop 1) : Int)) else none
  else if t.take 1 = ['+'] then
    if t.drop 1 ≠ [] && isDigits (t.drop 1) then some ((digitsToNat (t.drop 1) : Int)) else none
  else if t ≠ [] && isDigits t then some ((digitsToNat t : Int)) else none

-- ---------------------------------------------------------------------------
-- Gregorian dates, mirroring CPython's `datetime.date` (years 1..9999)
-- ---------------------------------------------------------------------------

structure Date where
  year : Nat
  month : Nat
  day : Nat
deriving DecidableEq, Repr

/-- CPython `_is_leap`. -/
def isLeapYear (y : Nat) : Bool := y % 4 == 0 && (y % 100 != 0 || y % 400 == 0)

/-- CPython `_days_in_month` / `calendar.monthrange(y, m)[1]`. -/
def monthLength (y m : Nat) : Nat :=
  if m = 2 then (if isLeapYear y then 29 else 28)
  else if m = 4 || m = 6 || m = 9 || m = 11 then 30
  else 31

/-- CPython `_DAYS_BEFORE_MONTH` table. -/
def daysBeforeMonthTable : Nat → Nat
  | 1 => 0 | 2 => 31 | 3 => 59 | 4 => 90 | 5 => 120 | 6 => 151
  | 7 => 181 | 8 => 212 | 9 => 243 | 10 => 273 | 11 => 304 | _ => 334

/-- CPython `_days_before_month`. -/
def daysBeforeMonth (y m : Nat) : Nat :=
  daysBeforeMonthTable m + (if 2 < m && isLeapYear y then 1 else 0)

/-- CPython `_days_before_year`. -/
def daysBeforeYear (y : Nat) : Nat :=
  365 * (y - 1) + (y - 1) / 4 - (y - 1) / 100 + (y - 1) / 400

/-- CPython `_ymd2ord`: proleptic Gregorian ordinal, day 1 = 0001-01-01. -/
def toOrdinal (d : Date) : Nat := daysBeforeYear d.year + daysBeforeMonth d.year d.month + d.day

/-- Ordinal of 9999-12-31, the largest `datetime.date`. -/
def maxOrdinal : Nat := 3652059

/-- Month search in CPython `_ord2ymd`: `rd` is the zero-based day of year. -/
def findMonth : Nat → Nat → Nat → Nat → Date
  | 0, y, m, rd => ⟨y, m, rd + 1⟩
  | fuel + 1, y, m, rd =>
    if rd < monthLength y m then ⟨y, m, rd + 1⟩
    else findMonth fuel y (m + 1) (rd - monthLength y m)

/-- CPython `_ord2ymd`. -/
def fromOrdinal (n : Nat) : Date :=
  let n0 := n - 1
  let n400 := n0 / 146097
  let r1 := n0 % 146097
  let n100 := r1 / 36524
  let r2 := r1 % 36524
  let n4 := r2 / 1461
  let r3 := r2 % 1461
  let n1 := r3 / 365
  let rd := r3 % 365
  let year := n400 * 400 + n100 * 100 + n4 * 4 + n1 + 1
  if n1 = 4 || n100 = 4 then ⟨year - 1, 12, 31⟩
  else findMonth 11 year 1 rd

/-- Model of `datetime.date(y, m, d)`: `none` models the `ValueError` on out-of-range
components (year outside 1..9999, month outside 1..12, day outside month). -/
def mkDate (y m d : Nat) : Option Date :=
  if 1 ≤ y && y ≤ 9999 && 1 ≤ m && m ≤ 12 && 1 ≤ d && d ≤ monthLength y m then some ⟨y, m, d⟩
  else none

/-- Model of `datetime.date` construction from possibly negative components. -/
def mkDateI (y m d : Int) : Option Date :=
  if 1 ≤ y && y ≤ 9999 && 1 ≤ m && m ≤ 12 && 1 ≤ d then mkDate y.toNat m.toNat d.toNat
  else none

/-- Python `date` comparison (dates compare by ordinal). -/
def date_lt (a b : Date) : Prop := toOrdinal a < toOrdinal b

instance : Decidable (date_lt a b) := by unfold date_lt; infer_instance

/-- Model of `d + timedelta(days = k)`; `none` models the out-of-range `OverflowError`. -/
def addDays (d : Date) (k : Nat) : Option Date :=
  if toOrdinal d + k ≤ maxOrdinal then some (fromOrdinal (toOrdinal d + k)) else none

/-- Model of `d - timedelta(days = k)`; `none` models the out-of-range `OverflowError`. -/
def subDays (d : Date) (k : Nat) : Option Date :=
  if k < toOrdinal d then some (fromOrdinal (toOrdinal d - k)) else none

/-- Model of `date.weekday()`: Monday = 0. -/
def weekday (d : Date) : Nat := (toOrdinal d + 6) % 7

/-- Model of `date.strftime("%Y%m%d")` for the 4-digit years produced here. -/
def yyyymmdd (d : Date) : Str := fmtMin 4 d.year ++ fmtMin 2 d.month ++ fmtMin 2 d.day

/-- ISO date string `YYYY-MM-DD` (`date.isoformat()`). -/
def isoformat (d : Date) : Str := fmtMin 4 d.year ++ '-' :: fmtMin 2 d.month ++ '-' :: fmtMin 2 d.day

-- ---------------------------------------------------------------------------
-- ISO week calendar (CPython `_isoweek1monday`, `fromisocalendar`, `isocalendar`)
-- ---------------------------------------------------------------------------

/-- CPython `_isoweek1monday(year)`: ordinal of the Monday of ISO week 1. -/
def isoweek1monday (y : Nat) : Int :=
  let firstday : Int := toOrdinal ⟨y, 1, 1⟩
  let firstweekday : Int := (firstday + 6).emod 7
  let week1monday : Int := firstday - firstweekday
  if 3 < firstweekday then week1monday + 7 else week1monday

/-- Model of `date.fromisocalendar(y, w, d)`; `none` models the `ValueError` paths. -/
def fromisocalendar (y : Nat) (w : Nat) (d : Nat) : Option Date :=
  if 1 ≤ y && y ≤ 9999 then
    let ok53 := w == 53 &&
      (let fwd := toOrdinal ⟨y, 1, 1⟩ % 7
       fwd == 4 || (fwd == 5 && isLeapYear y))
    if (0 < w && w < 53 || ok53) && 0 < d && d < 8 then
      let ordDay : Int := isoweek1monday y + ((w : Int) - 1) * 7 + ((d : Int) - 1)
      if 1 ≤ ordDay && ordDay ≤ (maxOrdinal : Int) then some (fromOrdinal ordDay.toNat) else none
    else none
  else none

/-- Model of `date.isocalendar()` as (ISO year, ISO week, ISO weekday). -/
def isocalendar (d : Date) : Int × Int × Int :=
  let year0 : Nat := d.year
  let todayOrd : Int := toOrdinal d
  let week0 : Int := (todayOrd - isoweek1monday year0).ediv 7
  let day0 : Int := (todayOrd - isoweek1monday year0).emod 7
  if week0 < 0 then
    let year1 := year0 - 1
    let week1 : Int := (todayOrd - isoweek1monday year1).ediv 7
    let day1 : Int := (todayOrd - isoweek1monday year1).emod 7
    ((year1 : Int), week1 + 1, day1 + 1)
  else if 52 ≤ week0 && isoweek1monday (year0 + 1) ≤ todayOrd then
    ((year0 : Int) + 1, 1, day0 + 1)
  else
    ((year0 : Int), week0 + 1, day0 + 1)

-- ---------------------------------------------------------------------------
-- Period Codec: `period_start_end`, `next_period_id`, `period_key`
-- ---------------------------------------------------------------------------

/-- Error taxonomy of the codec: `unrecognizedPeriod` models the final
"Unsupported or unrecognized period id" `ValueError`, `invalidRange` the
"end<start" `ValueError` of the date-range branch, `invalidDate` every
`ValueError` coming from an out-of-range date component. -/
inductive PeriodErr where
  | unrecognizedPeriod
  | invalidRange
  | invalidDate
deriving DecidableEq, Repr

/-- Regex `(\d{8})_(\d{8})` (fullmatch). -/
def matchRange (s : Str) : Bool :=
  s.length == 17 && isDigits (s.take 8) && (s.drop 8).take 1 == ['_'] && isDigits (s.drop 9)

/-- Regex `\d{8}` (fullmatch). -/
def matchDaily (s : Str) : Bool := s.length == 8 && isDigits s

/-- Regex `(\d{4})W(\d{2})` (fullmatch). -/
def matchWeekly (s : Str) : Bool :=
  s.length == 7 && isDigits (s.take 4) && (s.drop 4).take 1 == ['W'] && isDigits (s.drop 5)

/-- Regex `(\d{4})Q([1-4])` (fullmatch). -/
def matchQuarterly (s : Str) : Bool :=
  s.length == 6 && isDigits (s.take 4) && (s.drop 4).take 1 == ['Q'] &&
    (match s.drop 5 with
     | [c] => 49 ≤ c.toNat && c.toNat ≤ 52
     | _ => false)

/-- Regex `(\d{4})S([12])` (fullmatch). -/
def matchSixMonthly (s : Str) : Bool :=
  s.length == 6 && isDigits (s.take 4) && (s.drop 4).take 1 == ['S'] &&
    (match s.drop 5 with
     | [c] => 49 ≤ c.toNat && c.toNat ≤ 50
     | _ => false)

/-- Regex `(\d{4})(\d{2})` (fullmatch). -/
def matchMonthly (s : Str) : Bool := s.length == 6 && isDigits s

/-- Regex `\d{4}` (fullmatch). -/
def matchYearly (s : Str) : Bool := s.length == 4 && isDigits s

/-- Regex `(\d{4})B([1-6])`: the bi-monthly id shape `YYYYBn` of the spec.
(The codec has no branch for it; this matcher exists only to state that.) -/
def matchBiMonthly (s : Str) : Bool :=
  s.length == 6 && isDigits (s.take 4) && (s.drop 4).take 1 == ['B'] &&
    (match s.drop 5 with
     | [c] => 49 ≤ c.toNat && c.toNat ≤ 54
     | _ => false)

/-- Model of `datetime.strptime(s, "%Y%m%d").date()` on an 8-digit string. -/
def parseYMD8 (s : Str) : Option Date :=
  mkDate (digitsToNat (s.take 4)) (digitsToNat ((s.drop 4).take 2)) (digitsToNat (s.drop 6))

/-- Model of `{1: 1, 2: 4, 3: 7, 4: 10}` quarter start months. -/
def qStartMonth : Nat → Nat
  | 1 => 1 | 2 => 4 | 3 => 7 | _ => 10

/-- Model of `{1: 3, 2: 6, 3: 9, 4: 12}` quarter end months. -/
def qEndMonth : Nat → Nat
  | 1 => 3 | 2 => 6 | 3 => 9 | _ => 12

/-- Model of `period_start_end(period_id)`: date range of a DHIS2 period id, with the
source's branch order: date-range, daily, weekly, quarterly, six-monthly,
monthly, yearly; anything else is `unrecognizedPeriod`. -/
def period_start_end (period_id : Str) : Except PeriodErr (Date × Date) :=
  let s := pyStrip period_id
  if matchRange s then
    match parseYMD8 (s.take 8), parseYMD8 (s.drop 9) with
    | some sd, some ed => if date_lt ed sd then .error .invalidRange else .ok (sd, ed)
    | _, _ => .error .invalidDate
  else if matchDaily s then
    match parseYMD8 s with
    | some d => .ok (d, d)
    | none => .error .invalidDate
  else if matchWeekly s then
    let y := digitsToNat (s.take 4)
    let w := digitsToNat (s.drop 5)
    match fromisocalendar y w 1 with
    | some start =>
      match addDays start 6 with
      | some e => .ok (start, e)
      | none => .error .invalidDate
    | none => .error .invalidDate
  else if matchQuarterly s then
    let y := digitsToNat (s.take 4)
    let q := digitVal ((s.drop 5).headD 'x')
    let em := qEndMonth q
    match mkDate y (qStartMonth q) 1, mkDate y em (monthLength y em) with
    | some sd, some ed => .ok (sd, ed)
    | _, _ => .error .invalidDate
  else if matchSixMonthly s then
    let y := digitsToNat (s.take 4)
    let half := digitVal ((s.drop 5).headD 'x')
    if half = 1 then
      match mkDate y 1 1, mkDate y 6 30 with
      | some sd, some ed => .ok (sd, ed)
      | _, _ => .error .invalidDate
    else
      match mkDate y 7 1, mkDate y 12 31 with
      | some sd, some ed => .ok (sd, ed)
      | _, _ => .error .invalidDate
  else if matchMonthly s then
    let y := digitsToNat (s.take 4)
    let mm := digitsToNat (s.drop 4)
    if 1 ≤ mm ∧ mm ≤ 12 then
      match mkDate y mm 1, mkDate y mm (monthLength y mm) with
      | some sd, some ed => .ok (sd, ed)
      | _, _ => .error .invalidDate
    else .error .invalidDate
  else if matchYearly s then
    let y := digitsToNat s
    match mkDate y 1 1, mkDate y 12 31 with
    | some sd, some ed => .ok (sd, ed)
    | _, _ => .error .invalidDate
  else .error .unrecognizedPeriod

/-- Model of `next_period_id(period_id)`: succeeding id of the same kind, with the
source's branch order: daily, weekly, six-monthly, quarterly, monthly,
yearly; `none` models the `ValueError` on unrecognized input (and on date
overflow inside the daily/weekly branches). -/
def next_period_id (period_id : Str) : Option Str :=
  let s := pyStrip period_id
  if matchDaily s then
    match parseYMD8 s with
    | some d =>
      match addDays d 1 with
      | some d2 => some (yyyymmdd d2)
      | none => none
    | none => none
  else if matchWeekly s then
    let y := digitsToNat (s.take 4)
    let w := digitsToNat (s.drop 5)
    match fromisocalendar y w 1 with
    | some start =>
      match addDays start 7 with
      | some nxt =>
        let iso := isocalendar nxt
        some (intDigits iso.1 ++ 'W' :: fmtMin 2 iso.2.1.toNat)
      | none => none
    | none => none
  else if matchSixMonthly s then
    let y := digitsToNat (s.take 4)
    let h := digitVal ((s.drop 5).headD 'x')
    some (if h = 1 then fmtMin 4 y ++ ['S', '2'] else fmtMin 4 (y + 1) ++ ['S', '1'])
  else if matchQuarterly s then
    let y := digitsToNat (s.take 4)
    let q := digitVal ((s.drop 5).headD 'x') + 1
    some (if q = 5 then fmtMin 4 (y + 1) ++ ['Q', '1'] else fmtMin 4 y ++ 'Q' :: natDigits q)
  else if matchMonthly s then
    let y := digitsToNat (s.take 4)
    let mm := digitsToNat (s.drop 4) + 1
    some (if mm = 13 then fmtMin 4 (y + 1) ++ ['0', '1'] else fmtMin 4 y ++ fmtMin 2 mm)
  else if matchYearly s then
    some (fmtMin 4 (digitsToNat s + 1))
  else none

/-- Model of `period_key(period_id)`: sortable 3-tuple; `none` models the `ValueError`
 / `IndexError` raised by `int(...)` on slices that are not plain integers. -/
def period_key (period_id : Str) : Option (Int × Int × Int) :=
  if period_id.length = 4 then (pyInt period_id).map (fun n => (n, 0, 0))
  else if period_id.contains 'Q' then
    match period_id.getLast? with
    | some c =>
      match pyInt (period_id.take 4), pyInt [c] with
      | some a, some b => some (a, b, 0)
      | _, _ => none
    | none => none
  else
    match pyInt (period_id.take 4), pyInt ((period_id.drop 4).take 2) with
    | some a, some b => some (a, b, 0)
    | _, _ => none

/-- Python tuple `<` on 3-tuples of ints (lexicographic). -/
def keyLt (a b : Int × Int × Int) : Prop :=
  a.1 < b.1 ∨ (a.1 = b.1 ∧ (a.2.1 < b.2.1 ∨ (a.2.1 = b.2.1 ∧ a.2.2 < b.2.2)))

instance : Decidable (keyLt a b) := by unfold keyLt; infer_instance

def keyLtB (a b : Int × Int × Int) : Bool := decide (keyLt a b)

/-- Fold of Python `max(iterable, key=period_key)`: keep the first maximum,
replace only on a strictly greater key; `none` when any key raises. -/
def pyMaxByKeyAux (cur : Str) (ck : Int × Int × Int) : List Str → Option Str
  | [] => some cur
  | y :: ys =>
    match period_key y with
    | none => none
    | some ky => if keyLtB ck ky then pyMaxByKeyAux y ky ys else pyMaxByKeyAux cur ck ys

/-- Python `max(l, key=period_key)`; `none` on the empty list or a key error. -/
def pyMaxByKey : List Str → Option Str
  | [] => none
  | x :: xs =>
    match period_key x with
    | none => none
    | some kx => pyMaxByKeyAux x kx xs

/-- The scanner's aggregation `max(set(periods), key=period_key)`. -/
def aggregate_latest (periods : List Str) : Option Str := pyMaxByKey periods.dedup

-- ---------------------------------------------------------------------------
-- Calendar Conversion Adapter (`calendar_year_bounds`, `calendar_year_bounds_for`)
-- ---------------------------------------------------------------------------

/-- One optional `convertdate` module: conversion between a civil calendar and
the Gregorian calendar.  `to_gregorian` may fail (model of a library error /
out-of-range `date` construction from its result). -/
structure ConvCap where
  from_gregorian : Date → Int × Int × Int
  to_gregorian : Int → Int → Int → Option Date

/-- The four optional conversion modules probed by `_opt_import`:
`none` models a missing library. -/
structure CalLibs where
  ethiopian : Option ConvCap
  coptic : Option ConvCap
  islamic : Option ConvCap
  jalali : Option ConvCap

/-- All conversion libraries absent. -/
def noLibs : CalLibs := ⟨none, none, none, none⟩

/-- Model of `(calendar_id or "iso8601").lower()`. -/
def calOrDefault (calendar_id : Str) : Str :=
  pyLower (if calendar_id = [] then "iso8601".toList else calendar_id)

/-- The Gregorian-arithmetic family `("iso8601", "gregorian", "buddhist")`. -/
def isGregFamily (cal : Str) : Bool :=
  cal = "iso8601".toList || cal = "gregorian".toList || cal = "buddhist".toList

/-- The conversion module selected by the four parallel
`if cal == "..." and <module>:` branches of the source (they differ only in
the module used, so they are factored through this lookup); `none` both for
an unknown calendar id and for a missing library — in either case the
remaining branches of the source fail and it falls through to Gregorian. -/
def calLookup (libs : CalLibs) (cal : Str) : Option ConvCap :=
  if cal = "ethiopian".toList then libs.ethiopian
  else if cal = "coptic".toList then libs.coptic
  else if cal = "islamic".toList then libs.islamic
  else if cal = "persian".toList || cal = "jalali".toList then libs.jalali
  else none

/-- Model of `_greg_bounds(y)` of the source: Jan 1 .. Dec 31 of Gregorian year `y`. -/
def gregBoundsN (y : Nat) : Option (Date × Date) :=
  match mkDate y 1 1, mkDate y 12 31 with
  | some s, some e => some (s, e)
  | _, _ => none

/-- Model of `_greg_bounds` on an arbitrary integer year label. -/
def gregBoundsI (y : Int) : Option (Date × Date) :=
  match mkDateI y 1 1, mkDateI y 12 31 with
  | some s, some e => some (s, e)
  | _, _ => none

/-- The common non-Gregorian body of `calendar_year_bounds`: current year
label via `from_gregorian`, start of that year and of the next via
`to_gregorian`, year end as next year start minus one day. -/
def capBounds (cap : ConvCap) (today : Date) : Option (Int × (Date × Date)) :=
  let cy := (cap.from_gregorian today).1
  match cap.to_gregorian cy 1 1, cap.to_gregorian (cy + 1) 1 1 with
  | some s, some nxt =>
    match subDays nxt 1 with
    | some e => some (cy, (s, e))
    | none => none
  | _, _ => none

/-- Model of `calendar_year_bounds(calendar_id, today)`: `(year label, bounds)` of the
current year in the given DHIS2 calendar; `none` models a raised error. -/
def calendar_year_bounds (libs : CalLibs) (calendar_id : Str) (today : Date) :
    Option (Int × (Date × Date)) :=
  let cal := calOrDefault calendar_id
  if isGregFamily cal then (gregBoundsN today.year).map (fun b => ((today.year : Int), b))
  else
    match calLookup libs cal with
    | some cap => capBounds cap today
    | none => (gregBoundsN today.year).map (fun b => ((today.year : Int), b))

/-- The common non-Gregorian body of `calendar_year_bounds_for`. -/
def capBoundsFor (cap : ConvCap) (label : Int) : Option (Date × Date) :=
  match cap.to_gregorian label 1 1, cap.to_gregorian (label + 1) 1 1 with
  | some s, some nxt =>
    match subDays nxt 1 with
    | some e => some (s, e)
    | none => none
  | _, _ => none

/-- Model of `calendar_year_bounds_for(calendar_id, base_year_label)`: bounds of a
specific calendar year label; `none` models a raised error. -/
def calendar_year_bounds_for (libs : CalLibs) (calendar_id : Str) (base_year_label : Int) :
    Option (Date × Date) :=
  let cal := calOrDefault calendar_id
  if isGregFamily cal then gregBoundsI base_year_label
  else
    match calLookup libs cal with
    | some cap => capBoundsFor cap base_year_label
    | none => gregBoundsI base_year_label

-- ---------------------------------------------------------------------------
-- Fixed-Period Generator (`month_bounds` .. `latest_closed_period`)
-- ---------------------------------------------------------------------------

/-- Model of `_to_greg(cal, y, m, d)`: to Gregorian with total Gregorian fallback. -/
def toGreg (libs : CalLibs) (cal0 : Str) (y m d : Int) : Option Date :=
  let cal := calOrDefault cal0
  if isGregFamily cal then mkDateI y m d
  else
    match calLookup libs cal with
    | some cap => cap.to_gregorian y m d
    | none => mkDateI y m d

/-- Model of `_from_greg(cal, g)`: from Gregorian with total Gregorian fallback. -/
def fromGreg (libs : CalLibs) (cal0 : Str) (g : Date) : Int × Int × Int :=
  let cal := calOrDefault cal0
  if isGregFamily cal then ((g.year : Int), (g.month : Int), (g.day : Int))
  else
    match calLookup libs cal with
    | some cap => cap.from_gregorian g
    | none => ((g.year : Int), (g.month : Int), (g.day : Int))

/-- Model of `month_bounds(calendar_id, year_label, month_index)`: Gregorian range of
the given calendar month; end is the day before the next month's start. -/
def month_bounds (libs : CalLibs) (calendar_id : Str) (year_label month_index : Int) :
    Option (Date × Date) :=
  let cal := calOrDefault calendar_id
  match toGreg libs cal year_label month_index 1 with
  | none => none
  | some start_g =>
    let nxt := if month_index = 12 then (year_label + 1, (1 : Int)) else (year_label, month_index + 1)
    match toGreg libs cal nxt.1 nxt.2 1 with
    | none => none
    | some next_start_g => (subDays next_start_g 1).map (fun e => (start_g, e))

/-- Model of `quarter_bounds(calendar_id, year_label, q)`; `none` also models the
`KeyError` on a quarter index outside 1..4. -/
def quarter_bounds (libs : CalLibs) (calendar_id : Str) (year_label q : Int) :
    Option (Date × Date) :=
  let months : Option (Int × Int) :=
    if q = 1 then some (1, 3) else if q = 2 then some (4, 6)
    else if q = 3 then some (7, 9) else if q = 4 then some (10, 12) else none
  match months with
  | none => none
  | some (sm, em) =>
    match month_bounds libs calendar_id year_label sm, month_bounds libs calendar_id year_label em with
    | some (s, _), some (_, e) => some (s, e)
    | _, _ => none

/-- Model of `sixmonthly_bounds(calendar_id, year_label, variant, half)`. -/
def sixmonthly_bounds (libs : CalLibs) (calendar_id : Str) (year_label : Int)
    (variant : Str) (half : Nat) : Option (Date × Date) :=
  let cal := calOrDefault calendar_id
  if variant = "SixMonthly".toList then
    let months : Int × Int := if half = 1 then (1, 6) else (7, 12)
    match month_bounds libs cal year_label months.1, month_bounds libs cal year_label months.2 with
    | some (s, _), some (_, e) => some (s, e)
    | _, _ => none
  else if variant = "SixMonthlyApril".toList then
    if half = 1 then
      match month_bounds libs cal year_label 4, month_bounds libs cal year_label 9 with
      | some (s, _), some (_, e) => some (s, e)
      | _, _ => none
    else
      match month_bounds libs cal year_label 10, month_bounds libs cal (year_label + 1) 3 with
      | some (s, _), some (_, e) => some (s, e)
      | _, _ => none
  else
    if half = 1 then
      match month_bounds libs cal (year_label - 1) 11, month_bounds libs cal year_label 4 with
      | some (s, _), some (_, e) => some (s, e)
      | _, _ => none
    else
      match month_bounds libs cal year_label 5, month_bounds libs cal year_label 10 with
      | some (s, _), some (_, e) => some (s, e)
      | _, _ => none

/-- Model of `_WEEK_START` dictionary lookup. -/
def weekStartLookup (pt : Str) : Option Nat :=
  if pt = "Weekly".toList then some 0
  else if pt = "WeeklyWednesday".toList then some 2
  else if pt = "WeeklyThursday".toList then some 3
  else if pt = "WeeklySaturday".toList then some 5
  else if pt = "WeeklySunday".toList then some 6
  else none

/-- Date of a proleptic Gregorian ordinal; `none` outside the
`datetime.date` range (models the raised overflow error). -/
def ordToDate (o : Int) : Option Date :=
  if 1 ≤ o && o ≤ (maxOrdinal : Int) then some (fromOrdinal o.toNat) else none

/-- Model of `_closed_week_bounds(today, week_start)`. -/
def closed_week_bounds (today : Date) (week_start : Nat) : Option (Date × Date) :=
  let delta : Int := ((weekday today : Int) - (week_start : Int)).emod 7
  let currStartOrd : Int := (toOrdinal today : Int) - delta
  match ordToDate currStartOrd, ordToDate (currStartOrd + 6) with
  | some cs, some ce =>
    if date_lt ce today then some (cs, ce)
    else
      match ordToDate (currStartOrd - 7), ordToDate (currStartOrd - 1) with
      | some ps, some pe => some (ps, pe)
      | _, _ => none
  | _, _ => none

/-- Model of `_latest_closed_biweekly(today)`: ISO-Monday anchored two-week blocks. -/
def latest_closed_biweekly (today : Date) : Option (Date × Date) :=
  match closed_week_bounds today 0 with
  | none => none
  | some (_, wEnd) =>
    let isoWeek := (isocalendar wEnd).2.1
    let biEndOrd : Int :=
      if isoWeek.emod 2 = 0 then (toOrdinal wEnd : Int) else (toOrdinal wEnd : Int) - 7
    match ordToDate (biEndOrd - 13), ordToDate biEndOrd with
    | some bs, some be => some (bs, be)
    | _, _ => none

/-- Result record of the fixed-period generator (`PeriodResult`). -/
structure PeriodResult where
  period_id : Option Str
  period_range : Str
  startDate : Date
  endDate : Date
deriving DecidableEq, Repr

/-- Model of `PeriodResult(pid, f"(start)_(end)", start, end)` with dates kept
structured instead of ISO strings. -/
def mkPR (pid : Option Str) (s e : Date) : PeriodResult :=
  ⟨pid, yyyymmdd s ++ '_' :: yyyymmdd e, s, e⟩

/-- Errors of `latest_closed_period`: the final "Unsupported or unknown
period type" `ValueError`, and any date-arithmetic / empty-candidates error
raised inside a branch. -/
inductive LcpErr where
  | unsupportedPeriodType
  | dateError
deriving DecidableEq, Repr

/-- Python `a <= b` on dates. -/
def date_le (a b : Date) : Prop := toOrdinal a ≤ toOrdinal b

instance : Decidable (date_le a b) := by unfold date_le; infer_instance

/-- Six-monthly candidate list `[(end, year_label, half)]` for one year
label: both halves, kept only when the half's end precedes `today`. -/
def smCandidatesFor (libs : CalLibs) (cal : Str) (pt : Str) (yl : Int) (today : Date) :
    Option (List (Date × Int × Nat)) :=
  match sixmonthly_bounds libs cal yl pt 1, sixmonthly_bounds libs cal yl pt 2 with
  | some (_, e1), some (_, e2) =>
    some ((if date_lt e1 today then [(e1, yl, 1)] else []) ++
          (if date_lt e2 today then [(e2, yl, 2)] else []))
  | _, _ => none

/-- Sort key of a six-monthly candidate (Python tuple comparison). -/
def candKey (c : Date × Int × Nat) : Int × Int × Int :=
  ((toOrdinal c.1 : Int), c.2.1, (c.2.2 : Int))

/-- Model of `candidates.sort(); candidates[-1]`: the last maximum of the list
(Python's sort is stable, so the last element of the sorted list is the
last maximal element); `none` models the `IndexError` on an empty list. -/
def selectLastMax : List (Date × Int × Nat) → Option (Date × Int × Nat)
  | [] => none
  | x :: xs => some (xs.foldl (fun acc c => if keyLtB (candKey c) (candKey acc) then acc else c) x)

/-- Model of `latest_closed_period(period_type, today=today, calendar_id=calendar_id)`:
latest closed period of a DHIS2 fixed period type, per-type branches in the
source's order. -/
def latest_closed_period (libs : CalLibs) (period_type : Str) (today : Date)
    (calendar_id : Str) : Except LcpErr PeriodResult :=
  let pt := pyStrip period_type
  let cal := calOrDefault calendar_id
  if pt = "Daily".toList then
    match subDays today 1 with
    | some endd => .ok (mkPR (some (yyyymmdd endd)) endd endd)
    | none => .error .dateError
  else if (weekStartLookup pt).isSome then
    match weekStartLookup pt with
    | some ws =>
      match closed_week_bounds today ws with
      | some (s, e) =>
        let pid :=
          if pt = "Weekly".toList then
            let iso := isocalendar e
            some (intDigits iso.1 ++ 'W' :: fmtMin 2 iso.2.1.toNat)
          else none
        .ok (mkPR pid s e)
      | none => .error .dateError
    | none => .error .dateError
  else if pt = "BiWeekly".toList then
    match latest_closed_biweekly today with
    | some (s, e) => .ok (mkPR none s e)
    | none => .error .dateError
  else
    match calendar_year_bounds libs cal today with
    | none => .error .dateError
    | some (year_label, _) =>
      if pt = "Monthly".toList then
        let f := fromGreg libs cal today
        let ym : Int × Int := if f.2.1 = 1 then (f.1 - 1, 12) else (f.1, f.2.1 - 1)
        match month_bounds libs cal ym.1 ym.2 with
        | some (s, e) =>
          let pid := if isGregFamily cal then some (natDigits s.year ++ fmtMin 2 s.month) else none
          .ok (mkPR pid s e)
        | none => .error .dateError
      else if pt = "BiMonthly".toList then
        let f := fromGreg libs cal today
        let ym : Int × Int := if f.2.1 = 1 then (f.1 - 1, 12) else (f.1, f.2.1 - 1)
        let pair_start : Int := if ym.2.emod 2 = 0 then ym.2 - 1 else ym.2
        match month_bounds libs cal ym.1 pair_start with
        | none => .error .dateError
        | some (s, _) =>
          match month_bounds libs cal ym.1 (if pair_start < 12 then pair_start + 1 else 12) with
          | none => .error .dateError
          | some (_, e) =>
            let idx := (pair_start + 1).ediv 2
            let pid := if isGregFamily cal then some (natDigits s.year ++ 'B' :: intDigits idx) else none
            .ok (mkPR pid s e)
      else if pt = "Quarterly".toList then
        let f := fromGreg libs cal today
        let q_curr : Int := (f.2.1 - 1).ediv 3 + 1
        let q_closed : Int := if 1 < q_curr then q_curr - 1 else 4
        let yq : Int := if 1 < q_curr then year_label else year_label - 1
        match quarter_bounds libs cal yq q_closed with
        | some (s, e) =>
          let pid := if isGregFamily cal then some (natDigits s.year ++ 'Q' :: intDigits q_closed) else none
          .ok (mkPR pid s e)
        | none => .error .dateError
      else if pt = "SixMonthly".toList || pt = "SixMonthlyApril".toList ||
              pt = "SixMonthlyNovember".toList then
        match smCandidatesFor libs cal pt year_label today with
        | none => .error .dateError
        | some cands0 =>
          let candsO := if cands0 = [] then smCandidatesFor libs cal pt (year_label - 1) today
                        else some cands0
          match candsO with
          | none => .error .dateError
          | some cands =>
            match selectLastMax cands with
            | none => .error .dateError
            | some sel =>
              match sixmonthly_bounds libs cal sel.2.1 pt sel.2.2 with
              | none => .error .dateError
              | some (s, e) =>
                let pid :=
                  if pt = "SixMonthly".toList then
                    if isGregFamily cal then
                      some (natDigits s.year ++ 'S' ::
                        (if (fromGreg libs cal s).2.1 = 1 then ['1'] else ['2']))
                    else none
                  else if pt = "SixMonthlyApril".toList then
                    if isGregFamily cal then
                      some (natDigits s.year ++ "AprilS".toList ++
                        (if (fromGreg libs cal s).2.1 = 4 then ['1'] else ['2']))
                    else none
                  else
                    if isGregFamily cal then
                      some (natDigits s.year ++ "NovS".toList ++
                        (if (fromGreg libs cal s).2.1 = 11 then ['1'] else ['2']))
                    else none
                .ok (mkPR pid s e)
      else if pt = "Yearly".toList then
        match calendar_year_bounds_for libs cal (year_label - 1) with
        | some (s, e) =>
          let pid := if isGregFamily cal then some (natDigits s.year) else none
          .ok (mkPR pid s e)
        | none => .error .dateError
      else if pt = "TwoYearly".toList then
        match calendar_year_bounds_for libs cal (year_label - 2),
              calendar_year_bounds_for libs cal (year_label - 1) with
        | some (s, _), some (_, e) =>
          let pid := if isGregFamily cal then some (natDigits s.year ++ natDigits e.year) else none
          .ok (mkPR pid s e)
        | _, _ => .error .dateError
      else if pt = "FinancialApril".toList || pt = "FinancialJuly".toList ||
              pt = "FinancialOctober".toList || pt = "FinancialNovember".toList then
        let anchor : Int :=
          if pt = "FinancialApril".toList then 4
          else if pt = "FinancialJuly".toList then 7
          else if pt = "FinancialOctober".toList then 10 else 11
        match toGreg libs cal year_label anchor 1 with
        | none => .error .dateError
        | some thisAnchorG =>
          let yrs : Int × Int :=
            if date_le thisAnchorG today then (year_label - 1, year_label)
            else (year_label - 2, year_label - 1)
          match toGreg libs cal yrs.1 anchor 1, toGreg libs cal yrs.2 anchor 1 with
          | some fyStart, some nextAnchor =>
            match subDays nextAnchor 1 with
            | some fyEnd =>
              let label := pt.drop 9
              let pid := if isGregFamily cal then some (natDigits fyStart.year ++ label) else none
              .ok (mkPR pid fyStart fyEnd)
            | none => .error .dateError
          | _, _ => .error .dateError
      else .error .unsupportedPeriodType

-- ---------------------------------------------------------------------------
-- Latest-Populated-Period Scanner (`Analytics.latest_period_for_level`)
-- ---------------------------------------------------------------------------

/-- One entry of the `dataSetElements` metadata for a data element: the
linked dataset's id, name and `periodType` (empty strings model missing
JSON fields, as produced by `ds.get(...) or ""`). -/
structure DataSetRef where
  id : Str
  name : Str
  periodType : Str
deriving DecidableEq, Repr

/-- One row of a `dataValueSets` response; `none` models a missing or null
JSON field (`row.get(...)`). -/
structure DataRow where
  orgUnit : Str
  period : Option Str
  value : Option Str
deriving DecidableEq, Repr

/-- Errors raised by `latest_period_for_level` (all `ValueError` in the
source, distinguished here by the raise site). -/
inductive ScanError where
  | unresolvedFrequency
  | inconsistentFrequency (types : List Str) (datasets : List DataSetRef)
  | unsupportedPeriodType (pt : Str)
  | calendarOutOfRange
  | periodMathFailure
deriving DecidableEq, Repr

/-- Result of a scan (the returned dictionary, meta fields inlined). -/
structure ScanResult where
  dataElement : Str
  level : Int
  periodType : Str
  calendar : Str
  years_checked : Nat
  existing : Option (Str × Date × Date)
  next : Option (Str × Date × Date)
deriving DecidableEq, Repr

/-- The collaborators of one scan call: system calendar, dataset linkages of
the data element, organisation units at the level, and the
`dataValueSets` batch query (one call per chunk of org units). -/
structure ScanEnv where
  libs : CalLibs
  calendar : Str
  dataSetElements : List DataSetRef
  orgUnits : List Str
  fetchChunk : List Str → Date → Date → List DataRow
  today : Date
  de_uid : Str
  level : Int

/-- Model of `(sysinfo.get("calendar") or "iso8601").lower()`. -/
def resolved_calendar (env : ScanEnv) : Str :=
  pyLower (if env.calendar = [] then "iso8601".toList else env.calendar)

/-- The `ds_info` list: linkages with a non-empty upper-cased period type. -/
def dsInfos (links : List DataSetRef) : List DataSetRef :=
  links.filterMap fun d =>
    let pt := pyUpper d.periodType
    if pt = [] then none else some ⟨d.id, d.name, pt⟩

/-- Python string `<=` (lexicographic by code point). -/
def strLeB : Str → Str → Bool
  | [], _ => true
  | _ :: _, [] => false
  | a :: as, b :: bs => if a = b then strLeB as bs else decide (a.toNat < b.toNat)

/-- Insertion sort by `strLeB`, modelling Python `sorted` on strings. -/
def insertStr (x : Str) : List Str → List Str
  | [] => [x]
  | y :: ys => if strLeB x y then x :: y :: ys else y :: insertStr x ys

def sortStrs : List Str → List Str
  | [] => []
  | x :: xs => insertStr x (sortStrs xs)

/-- Model of `sorted({d["periodType"] for d in ds_info})`. -/
def uniquePts (links : List DataSetRef) : List Str :=
  sortStrs ((dsInfos links).map (fun d => d.periodType)).dedup

def supportedPeriodTypes : List Str :=
  ["MONTHLY".toList, "QUARTERLY".toList, "YEARLY".toList]

/-- Lines 47..83 of the scanner: infer the period type from the dataset
linkages, requiring exactly one distinct frequency and one of the three
supported frequencies; errors mirror the three `raise ValueError` sites. -/
def resolve_period_type (links : List DataSetRef) : Except ScanError Str :=
  let infos := dsInfos links
  if infos = [] then .error .unresolvedFrequency
  else
    let uniq := uniquePts links
    if 1 < uniq.length then .error (.inconsistentFrequency uniq infos)
    else
      let pt := uniq.headD []
      if pt ∈ supportedPeriodTypes then .ok pt else .error (.unsupportedPeriodType pt)

/-- Model of `_chunks(seq, n)`: fill a buffer left to right, yield it at size `n`,
yield the non-empty remainder at the end (for `n = 0` the buffer never
reaches the yield size, so the whole sequence comes out as one chunk). -/
def chunksOfAux (n : Nat) (fuel : Nat) (l : List Str) : List (List Str) :=
  match fuel with
  | 0 => if l = [] then [] else [l]
  | fuel + 1 => if l = [] then [] else l.take n :: chunksOfAux n fuel (l.drop n)

def chunksOf (n : Nat) (l : List Str) : List (List Str) :=
  if n = 0 then (if l = [] then [] else [l]) else chunksOfAux n l.length l

/-- The filter of `_fetch_periods_window`'s row loop:
`if pe and val not in (None, ""): collected.append(pe)`. -/
def rowPeriod (r : DataRow) : Option Str :=
  match r.period with
  | none => none
  | some pe =>
    if pe = [] then none
    else
      match r.value with
      | none => none
      | some v => if v = [] then none else some pe

/-- All rows returned for one window (responses of every chunk, in order). -/
def allRows (env : ScanEnv) (s e : Date) : List DataRow :=
  (chunksOf 200 env.orgUnits).flatMap fun batch => env.fetchChunk batch s e

/-- Model of `_fetch_periods_window(start, end)`: period codes of rows with a
non-empty period and a value that is neither null nor the empty string. -/
def fetch_periods_window (env : ScanEnv) (s e : Date) : List Str :=
  (chunksOf 200 env.orgUnits).flatMap fun batch => (env.fetchChunk batch s e).filterMap rowPeriod

/-- The year window pairs the scan has queried, in order (observation log of
the `dataValueSets` window calls; `ValueError` sites keep the log). -/
abbrev WindowLog := List (Date × Date)

/-- The `for k in range(1, MAX_YEARS + 1)` loop: `fuel` counts the remaining
iterations (30 on entry), `k` is the loop variable, `yc` the value of
`years_checked` before the iteration.  Returns the latest period id found
(`none` when the horizon is exhausted), the final `years_checked`, and the
window log. -/
def scanPrevYears (env : ScanEnv) (cal : Str) (label : Int) :
    Nat → Int → Nat → WindowLog → Except ScanError (Option Str × Nat) × WindowLog
  | 0, _, yc, log => (.ok (none, yc), log)
  | fuel + 1, k, _, log =>
    match calendar_year_bounds_for env.libs cal (label - k) with
    | none => (.error .calendarOutOfRange, log)
    | some (s, e) =>
      let periods := fetch_periods_window env s e
      let log2 := log ++ [(s, e)]
      if periods = [] then scanPrevYears env cal label fuel (k + 1) (k + 1).toNat log2
      else
        match aggregate_latest periods with
        | none => (.error .periodMathFailure, log2)
        | some pid => (.ok (some pid, (k + 1).toNat), log2)

/-- Model of `latest_period_for_level(de_uid, level)` together with the log of year
windows it queried.  Collaborator behavior is supplied by `env`. -/
def latest_period_for_level (env : ScanEnv) : Except ScanError ScanResult × WindowLog :=
  let calendar_id := resolved_calendar env
  match resolve_period_type env.dataSetElements with
  | .error e => (.error e, [])
  | .ok period_type =>
    if env.orgUnits = [] then
      (.ok ⟨env.de_uid, env.level, period_type, calendar_id, 0, none, none⟩, [])
    else
      match calendar_year_bounds env.libs calendar_id env.today with
      | none => (.error .calendarOutOfRange, [])
      | some (cal_year_label, (ns, ne)) =>
        let periods := fetch_periods_window env ns ne
        let found :=
          if periods = [] then scanPrevYears env calendar_id cal_year_label 30 1 1 [(ns, ne)]
          else
            match aggregate_latest periods with
            | none => (.error .periodMathFailure, [(ns, ne)])
            | some pid => (.ok (some pid, 1), [(ns, ne)])
        match found with
        | (.error e, log) => (.error e, log)
        | (.ok (none, yc), log) =>
          (.ok ⟨env.de_uid, env.level, period_type, calendar_id, yc, none, none⟩, log)
        | (.ok (some pid, yc), log) =>
          match period_start_end pid, next_period_id pid with
          | .ok (es, ee), some nid =>
            match period_start_end nid with
            | .ok (nxs, nxe) =>
              (.ok ⟨env.de_uid, env.level, period_type, calendar_id, yc,
                    some (pid, es, ee), some (nid, nxs, nxe)⟩, log)
            | .error _ => (.error .periodMathFailure, log)
          | _, _ => (.error .periodMathFailure, log)

/-- The yearly id `YYYY` built from its components. -/
def fmtYearly (y : Nat) : Str := fmtMin 4 y

/-- The quarterly id `YYYYQn` built from its components. -/
def fmtQuarterly (y q : Nat) : Str := fmtMin 4 y ++ 'Q' :: [digitChar q]

/-- The monthly id `YYYYMM` built from its components. -/
def fmtMonthly (y m : Nat) : Str := fmtMin 4 y ++ fmtMin 2 m

/-- The bi-monthly id `YYYYBn` of the spec, built from its components. -/
def fmtBiMonthly (y n : Nat) : Str := fmtMin 4 y ++ 'B' :: [digitChar n]


/-- The cases in which the adapter is specified to use Gregorian arithmetic:
the Gregorian family, an unknown calendar id, or a known non-Gregorian id
whose conversion library is absent (`calLookup` yields no capability). -/
def usesGregFallback (libs : CalLibs) (calendar_id : Str) : Prop :=
  isGregFamily (calOrDefault calendar_id) = true ∨
    (calLookup libs (calOrDefault calendar_id)).isNone = true

instance : Decidable (usesGregFallback libs calendar_id) := by
  unfold usesGregFallback
  infer_instance


/-- The three configuration errors of §4.4 step 1 (and the period-type
support check), as opposed to errors arising later from data or dates. -/
def isConfigError : ScanError → Bool
  | .unresolvedFrequency => true
  | .inconsistentFrequency _ _ => true
  | .unsupportedPeriodType _ => true
  | .calendarOutOfRange => false
  | .periodMathFailure => false

/-- The configuration conditions under which period-type resolution fails:
no linkage with a period type, more than one distinct period type, or a
single period type outside the supported set. -/
def configBad (links : List DataSetRef) : Prop :=
  dsInfos links = [] ∨ 1 < (uniquePts links).length ∨
    (uniquePts links).headD [] ∉ supportedPeriodTypes


/-- Collaborator environment with a single linked dataset of an unsupported
(weekly) frequency. -/
def envSingleWeekly : ScanEnv :=
  { libs := noLibs
    calendar := "iso8601".toList
    dataSetElements := [⟨"DSW".toList, "Weekly DS".toList, "WEEKLY".toList⟩]
    orgUnits := ["OU1".toList]
    fetchChunk := fun _ _ _ => []
    today := ⟨2025, 6, 1⟩
    de_uid := "DE1".toList
    level := 2 }

/-- Collaborator environment with linkages of two different frequencies. -/
def envMixedFrequencies : ScanEnv :=
  { libs := noLibs
    calendar := "iso8601".toList
    dataSetElements := [⟨"DSM".toList, "Monthly".toList, "MONTHLY".toList⟩,
                        ⟨"DSQ".toList, "Quarterly".toList, "QUARTERLY".toList⟩]
    orgUnits := ["OU1".toList]
    fetchChunk := fun _ _ _ => []
    today := ⟨2025, 6, 1⟩
    de_uid := "DE_MIXED".toList
    level := 2 }


/-- Collaborator environment whose level resolves to zero organisation
units. -/
def envNoOrgUnits : ScanEnv :=
  { libs := noLibs
    calendar := "iso8601".toList
    dataSetElements := [⟨"DSA".toList, "Monthly DS".toList, "Monthly".toList⟩]
    orgUnits := []
    fetchChunk := fun _ _ _ => []
    today := ⟨2025, 6, 1⟩
    de_uid := "DE1".toList
    level := 9 }


/-- Collaborator environment in which every data-window query returns no
rows at all. -/
def envAllWindowsEmpty : ScanEnv :=
  { libs := noLibs
    calendar := "iso8601".toList
    dataSetElements := [⟨"DSA".toList, "Monthly DS".toList, "Monthly".toList⟩]
    orgUnits := ["OU1".toList]
    fetchChunk := fun _ _ _ => []
    today := ⟨2025, 6, 1⟩
    de_uid := "DE1".toList
    level := 2 }


/-- Collaborator environment whose data rows all carry null or empty
values. -/
def envNullValues : ScanEnv :=
  { libs := noLibs
    calendar := "iso8601".toList
    dataSetElements := [⟨"DSA".toList, "Monthly DS".toList, "Monthly".toList⟩]
    orgUnits := ["OU1".toList, "OU2".toList]
    fetchChunk := fun _ _ _ =>
      [⟨"OU1".toList, some ("202501".toList), none⟩,
       ⟨"OU2".toList, some ("202503".toList), some []⟩]
    today := ⟨2025, 6, 1⟩
    de_uid := "DE1".toList
    level := 2 }

-- ---------------------------------------------------------------------------
-- Lemmas: digits, formatting, stripping
-- ---------------------------------------------------------------------------

theorem digitChar_toNat (k : Nat) (h : k < 10) : (digitChar k).toNat = 48 + k := by
  interval_cases k <;> decide

theorem isDigitC_digitChar (k : Nat) (h : k < 10) : isDigitC (digitChar k) = true := by
  interval_cases k <;> decide

theorem digitVal_digitChar (k : Nat) (h : k < 10) : digitVal (digitChar k) = k := by
  interval_cases k <;> decide

theorem foldl_digits_from (a : Nat) (ys : Str) :
    ys.foldl (fun b c => 10 * b + digitVal c) a = a * 10 ^ ys.length + digitsToNat ys := by
  induction ys generalizing a with
  | nil => simp [digitsToNat]
  | cons c ys ih =>
    have hL : List.foldl (fun b ch => 10 * b + digitVal ch) a (c :: ys)
        = (10 * a + digitVal c) * 10 ^ ys.length + digitsToNat ys := by
      rw [List.foldl_cons]
      exact ih _
    have hR : digitsToNat (c :: ys) = (10 * 0 + digitVal c) * 10 ^ ys.length + digitsToNat ys := by
      show List.foldl (fun b ch => 10 * b + digitVal ch) 0 (c :: ys) = _
      rw [List.foldl_cons]
      exact ih _
    rw [hL, hR]
    simp only [List.length_cons]
    ring

theorem digitsToNat_append (xs ys : Str) :
    digitsToNat (xs ++ ys) = digitsToNat xs * 10 ^ ys.length + digitsToNat ys := by
  rw [digitsToNat, List.foldl_append, foldl_digits_from]
  rfl

theorem natDigitsAux_ne_nil (fuel n : Nat) (h : 1 ≤ fuel) : natDigitsAux fuel n ≠ [] := by
  match fuel with
  | f + 1 =>
    rw [natDigitsAux]
    split
    · exact List.cons_ne_nil _ _
    · intro hx
      exact absurd (List.append_eq_nil.mp hx).2 (by simp)

theorem natDigits_ne_nil (n : Nat) : natDigits n ≠ [] :=
  natDigitsAux_ne_nil (n + 1) n (by omega)

theorem digitsToNat_natDigitsAux (fuel : Nat) :
    ∀ n, n < 10 ^ fuel → digitsToNat (natDigitsAux fuel n) = n := by
  induction fuel with
  | zero =>
    intro n h
    simp only [pow_zero] at h
    have hn0 : n = 0 := by omega
    subst hn0
    rfl
  | succ fuel ih =>
    intro n h
    rw [natDigitsAux]
    split
    · next hn =>
      simp [digitsToNat, digitVal_digitChar n hn]
    · next hn =>
      have hdiv : n / 10 < 10 ^ fuel := by
        rw [Nat.div_lt_iff_lt_mul (by omega)]
        calc n < 10 ^ (fuel + 1) := h
        _ = 10 ^ fuel * 10 := by ring
      rw [digitsToNat_append, ih (n / 10) hdiv]
      simp [digitsToNat, digitVal_digitChar (n % 10) (Nat.mod_lt n (by omega))]
      omega

theorem lt_pow_succ_self (n : Nat) : n < 10 ^ (n + 1) := by
  calc n < 10 ^ n := Nat.lt_pow_self (by omega) n
  _ ≤ 10 ^ (n + 1) := Nat.pow_le_pow_right (by omega) (by omega)

theorem digitsToNat_natDigits (n : Nat) : digitsToNat (natDigits n) = n :=
  digitsToNat_natDigitsAux (n + 1) n (lt_pow_succ_self n)

theorem isDigits_natDigitsAux (fuel : Nat) : ∀ n, isDigits (natDigitsAux fuel n) = true := by
  induction fuel with
  | zero => intro n; rfl
  | succ fuel ih =>
    intro n
    rw [natDigitsAux]
    split
    · next h => simp [isDigits, isDigitC_digitChar n h]
    · next h =>
      have h1 := ih (n / 10)
      simp only [isDigits, List.all_append, List.all_cons, List.all_nil, Bool.and_eq_true,
        Bool.and_true] at *
      exact ⟨h1, isDigitC_digitChar (n % 10) (Nat.mod_lt n (by omega))⟩

theorem isDigits_natDigits (n : Nat) : isDigits (natDigits n) = true :=
  isDigits_natDigitsAux (n + 1) n

theorem natDigitsAux_length_le (fuel : Nat) :
    ∀ w n, n < 10 ^ (w + 1) → (natDigitsAux fuel n).length ≤ w + 1 := by
  induction fuel with
  | zero =>
    intro w n _
    simp [natDigitsAux]
  | succ fuel ih =>
    intro w n h
    rw [natDigitsAux]
    split
    · simp only [List.length_cons, List.length_nil]
      omega
    · next hn =>
      have hw1 : 1 ≤ w := by
        by_contra hc
        have hw0 : w = 0 := by omega
        subst hw0
        have : (10 : Nat) ^ (0 + 1) = 10 := by norm_num
        omega
      have hdiv : n / 10 < 10 ^ w := by
        rw [Nat.div_lt_iff_lt_mul (by omega)]
        calc n < 10 ^ (w + 1) := h
        _ = 10 ^ w * 10 := by ring
      obtain ⟨w', rfl⟩ : ∃ w', w = w' + 1 := ⟨w - 1, by omega⟩
      have := ih w' (n / 10) hdiv
      simp only [List.length_append, List.length_cons, List.length_nil]
      omega

theorem natDigits_length_le (w n : Nat) (h : n < 10 ^ (w + 1)) :
    (natDigits n).length ≤ w + 1 :=
  natDigitsAux_length_le (n + 1) w n h

theorem digitsToNat_replicate_zero (k : Nat) : digitsToNat (List.replicate k '0') = 0 := by
  induction k with
  | zero => rfl
  | succ k ih =>
    rw [List.replicate_succ]
    show List.foldl (fun b c => 10 * b + digitVal c) 0 ('0' :: List.replicate k '0') = 0
    simp only [List.foldl_cons]
    have : (10 * 0 + digitVal '0') = 0 := by decide
    rw [this]
    exact ih

theorem digitsToNat_fmtMin (w n : Nat) : digitsToNat (fmtMin w n) = n := by
  rw [fmtMin, digitsToNat_append, digitsToNat_replicate_zero, digitsToNat_natDigits]
  omega

theorem fmtMin_length (w n : Nat) (hw : 1 ≤ w) (h : n < 10 ^ w) :
    (fmtMin w n).length = w := by
  rw [fmtMin]
  obtain ⟨w', rfl⟩ : ∃ w', w = w' + 1 := ⟨w - 1, by omega⟩
  have := natDigits_length_le w' n h
  have h2 : 1 ≤ (natDigits n).length := by
    have := natDigits_ne_nil n
    cases hne : natDigits n with
    | nil => exact absurd hne this
    | cons a l => simp
  simp only [List.length_append, List.length_replicate]
  omega

theorem isDigits_fmtMin (w n : Nat) : isDigits (fmtMin w n) = true := by
  rw [fmtMin]
  simp only [isDigits, List.all_append, Bool.and_eq_true]
  constructor
  · simp only [List.all_eq_true]
    intro c hc
    rw [List.eq_of_mem_replicate hc]
    decide
  · exact isDigits_natDigits n

theorem isSpaceC_toNat_le (c : Char) (h : isSpaceC c = true) : c.toNat ≤ 32 := by
  simp only [isSpaceC, Bool.or_eq_true, decide_eq_true_eq] at h
  rcases h with ((((rfl | rfl) | rfl) | rfl) | rfl) | rfl <;> decide

theorem isSpaceC_of_isDigitC (c : Char) (h : isDigitC c = true) : isSpaceC c = false := by
  by_contra hc
  have h2 := isSpaceC_toNat_le c (by revert hc; cases isSpaceC c <;> simp)
  simp only [isDigitC, Bool.and_eq_true, decide_eq_true_eq] at h
  omega

theorem dropWhile_eq_self_of_none (p : Char → Bool) (l : Str)
    (h : ∀ c ∈ l, p c = false) : l.dropWhile p = l := by
  cases l with
  | nil => rfl
  | cons x xs => rw [List.dropWhile_cons_of_neg (by simp [h x (by simp)])]

theorem pyStrip_eq_self (s : Str) (h : ∀ c ∈ s, isSpaceC c = false) : pyStrip s = s := by
  rw [pyStrip, dropWhile_eq_self_of_none _ _ h,
      dropWhile_eq_self_of_none _ _ (by intro c hc; exact h c (by simpa using hc)),
      List.reverse_reverse]

theorem isDigits_mem (s : Str) (h : isDigits s = true) {c : Char} (hc : c ∈ s) :
    isDigitC c = true := by
  simp only [isDigits, List.all_eq_true] at h
  exact h c hc

theorem pyStrip_of_isDigits (s : Str) (h : isDigits s = true) : pyStrip s = s :=
  pyStrip_eq_self s (fun c hc => isSpaceC_of_isDigitC c (isDigits_mem s h hc))

theorem take_one_ne_of_digits (s : Str) (h : isDigits s = true) (c : Char)
    (hc : isDigitC c = false) : s.take 1 ≠ [c] := by
  intro he
  cases s with
  | nil => simp at he
  | cons a as =>
    have ha : a = c := by simpa using he
    subst ha
    have := isDigits_mem (a :: as) h (List.mem_cons_self a as)
    rw [hc] at this
    exact Bool.false_ne_true this

theorem contains_eq_false_of_digits (s : Str) (h : isDigits s = true) (c : Char)
    (hc : isDigitC c = false) : s.contains c = false := by
  cases hcon : s.contains c
  · rfl
  · have hmem : c ∈ s := List.mem_of_elem_eq_true hcon
    have := isDigits_mem s h hmem
    rw [hc] at this
    exact absurd this Bool.false_ne_true

theorem pyInt_of_digits (s : Str) (h0 : s ≠ []) (h : isDigits s = true) :
    pyInt s = some ((digitsToNat s : Int)) := by
  rw [pyInt]
  simp only [pyStrip_of_isDigits s h]
  rw [if_neg (take_one_ne_of_digits s h '-' (by decide)),
      if_neg (take_one_ne_of_digits s h '+' (by decide)),
      if_pos (by simp [h0, h])]

-- ---------------------------------------------------------------------------
-- Lemmas: ordinal arithmetic
-- ---------------------------------------------------------------------------

theorem monthLength_pos (y m : Nat) : 1 ≤ monthLength y m := by
  rw [monthLength]
  split
  · split <;> omega
  · split <;> omega

theorem monthLength_le_31 (y m : Nat) : monthLength y m ≤ 31 := by
  rw [monthLength]
  split
  · split <;> omega
  · split <;> omega

theorem daysBeforeMonth_le (y m : Nat) (h : m ≤ 12) : daysBeforeMonth y m ≤ 335 := by
  rw [daysBeforeMonth]
  interval_cases m <;> split <;> simp_all [daysBeforeMonthTable]

theorem daysBeforeMonth_succ (y m : Nat) (h1 : 1 ≤ m) (h2 : m ≤ 11) :
    daysBeforeMonth y (m + 1) = daysBeforeMonth y m + monthLength y m := by
  by_cases hl : isLeapYear y <;>
    interval_cases m <;>
      simp [daysBeforeMonth, daysBeforeMonthTable, monthLength, hl]

theorem daysBeforeMonth_mono (y m1 m2 : Nat) (h1 : 1 ≤ m1) (h2 : m1 ≤ m2) (h3 : m2 ≤ 12) :
    daysBeforeMonth y m1 ≤ daysBeforeMonth y m2 := by
  have h4 : m1 ≤ 12 := by omega
  by_cases hl : isLeapYear y <;>
    interval_cases m1 <;> interval_cases m2 <;>
      simp_all [daysBeforeMonth, daysBeforeMonthTable, hl]

theorem daysBeforeMonth_strict_mono (y m1 m2 : Nat) (h1 : 1 ≤ m1) (h2 : m1 < m2) (h3 : m2 ≤ 12) :
    daysBeforeMonth y m1 < daysBeforeMonth y m2 := by
  have h4 : m1 ≤ 12 := by omega
  have h5 : 1 ≤ m2 := by omega
  by_cases hl : isLeapYear y <;>
    interval_cases m1 <;> interval_cases m2 <;>
      simp_all [daysBeforeMonth, daysBeforeMonthTable, hl]

theorem isLeapYear_iff (y : Nat) :
    isLeapYear y = true ↔ (y % 4 = 0 ∧ (y % 100 ≠ 0 ∨ y % 400 = 0)) := by
  simp [isLeapYear, Bool.and_eq_true, Bool.or_eq_true, beq_iff_eq, bne_iff_ne]

set_option maxHeartbeats 1600000 in
theorem daysBeforeYear_succ_common (y : Nat) (hb : isLeapYear y = false) :
    daysBeforeYear (y + 1) = daysBeforeYear y + 365 := by
  have hno : ¬(y % 4 = 0 ∧ (y % 100 ≠ 0 ∨ y % 400 = 0)) := by
    rw [← isLeapYear_iff]
    simp [hb]
  unfold daysBeforeYear
  by_cases h4 : y % 4 = 0
  · by_cases h400 : y % 400 = 0
    · exact absurd ⟨h4, Or.inr h400⟩ hno
    · by_cases h100 : y % 100 = 0
      · omega
      · exact absurd ⟨h4, Or.inl h100⟩ hno
  · by_cases h100 : y % 100 = 0 <;> by_cases h400 : y % 400 = 0 <;> omega

set_option maxHeartbeats 1600000 in
theorem daysBeforeYear_succ_leap (y : Nat) (hy : 1 ≤ y) (hb : isLeapYear y = true) :
    daysBeforeYear (y + 1) = daysBeforeYear y + 366 := by
  obtain ⟨h4, hor⟩ := (isLeapYear_iff y).mp hb
  unfold daysBeforeYear
  by_cases h100 : y % 100 = 0 <;> by_cases h400 : y % 400 = 0
  · omega
  · exfalso
    rcases hor with h | h
    · exact h h100
    · exact h400 h
  · omega
  · omega

theorem daysBeforeYear_succ_ge (y : Nat) (hy : 1 ≤ y) :
    daysBeforeYear y + 365 ≤ daysBeforeYear (y + 1) := by
  cases hb : isLeapYear y
  · rw [daysBeforeYear_succ_common y hb]
  · rw [daysBeforeYear_succ_leap y hy hb]
    omega

theorem daysBeforeYear_mono (y1 y2 : Nat) (h0 : 1 ≤ y1) (h : y1 ≤ y2) :
    daysBeforeYear y1 ≤ daysBeforeYear y2 := by
  induction y2 with
  | zero => omega
  | succ y2 ih =>
    rcases Nat.lt_or_ge y1 (y2 + 1) with hlt | hge
    · have h1 : y1 ≤ y2 := by omega
      have h2 := ih h1
      have h3 := daysBeforeYear_succ_ge y2 (by omega)
      omega
    · have heq : y1 = y2 + 1 := by omega
      rw [heq]

theorem daysBeforeYear_add_le (y1 y2 : Nat) (h0 : 1 ≤ y1) (h : y1 < y2) :
    daysBeforeYear y1 + 365 ≤ daysBeforeYear y2 := by
  have h1 := daysBeforeYear_succ_ge y1 h0
  have h2 := daysBeforeYear_mono (y1 + 1) y2 (by omega) (by omega)
  omega

/-- One-day adjacency of consecutive months: the ordinal of the first day of
the month after `(y, m)` is one more than the ordinal of `(y, m)`'s last day. -/
theorem toOrdinal_next_month (y m : Nat) (hm1 : 1 ≤ m) (hm2 : m ≤ 11) :
    toOrdinal ⟨y, m + 1, 1⟩ = toOrdinal ⟨y, m, monthLength y m⟩ + 1 := by
  simp only [toOrdinal]
  rw [daysBeforeMonth_succ y m hm1 hm2]
  omega

/-- One-day adjacency across a year boundary: Jan 1 of `y + 1` is one day
after Dec 31 of `y`. -/
theorem toOrdinal_next_year (y : Nat) (hy : 1 ≤ y) :
    toOrdinal ⟨y + 1, 1, 1⟩ = toOrdinal ⟨y, 12, 31⟩ + 1 := by
  simp only [toOrdinal]
  cases hl : isLeapYear y
  · rw [daysBeforeYear_succ_common y hl]
    simp [daysBeforeMonth, daysBeforeMonthTable, hl]
  · rw [daysBeforeYear_succ_leap y hy hl]
    simp [daysBeforeMonth, daysBeforeMonthTable, hl]

/-- Chronological order of month starts is the lexicographic order of their
`(year, month)` components. -/
theorem toOrdinal_start_lt_iff (y1 m1 y2 m2 : Nat) (hy1 : 1 ≤ y1) (hy2 : 1 ≤ y2)
    (hm1 : 1 ≤ m1) (hm1b : m1 ≤ 12) (hm2 : 1 ≤ m2) (hm2b : m2 ≤ 12) :
    (toOrdinal ⟨y1, m1, 1⟩ < toOrdinal ⟨y2, m2, 1⟩) ↔ (y1 < y2 ∨ (y1 = y2 ∧ m1 < m2)) := by
  constructor
  · intro h
    by_contra hc
    push_neg at hc
    obtain ⟨hyy, hmm⟩ := hc
    rcases Nat.lt_or_ge y2 y1 with hlt | hge
    · have hb := daysBeforeYear_add_le y2 y1 hy2 hlt
      have h335 := daysBeforeMonth_le y2 m2 hm2b
      simp only [toOrdinal] at h
      omega
    · have hyeq : y1 = y2 := by omega
      subst hyeq
      have hmle : m2 ≤ m1 := hmm rfl
      have := daysBeforeMonth_mono y1 m2 m1 hm2 hmle hm1b
      simp only [toOrdinal] at h
      omega
  · intro h
    rcases h with hlt | ⟨heq, hmlt⟩
    · have hb := daysBeforeYear_add_le y1 y2 hy1 hlt
      have h335 := daysBeforeMonth_le y1 m1 hm1b
      simp only [toOrdinal]
      omega
    · subst heq
      have := daysBeforeMonth_strict_mono y1 m1 m2 hm1 hmlt hm2b
      simp only [toOrdinal]
      omega

-- ---------------------------------------------------------------------------
-- Lemmas: the lexical id shapes and their codec round trips
-- ---------------------------------------------------------------------------


theorem fmtMin4_length (y : Nat) (hy : y ≤ 9999) : (fmtMin 4 y).length = 4 :=
  fmtMin_length 4 y (by omega) (by norm_num; omega)

theorem fmtMin2_length (m : Nat) (hm : m ≤ 99) : (fmtMin 2 m).length = 2 :=
  fmtMin_length 2 m (by omega) (by norm_num; omega)

theorem fmtMin_ne_nil (w n : Nat) : fmtMin w n ≠ [] := by
  rw [fmtMin]
  intro hx
  exact absurd (List.append_eq_nil.mp hx).2 (natDigits_ne_nil n)

theorem take_append_of_length (l1 l2 : Str) (n : Nat) (h : l1.length = n) :
    (l1 ++ l2).take n = l1 := by
  subst h
  exact List.take_left _ _

theorem drop_append_of_length (l1 l2 : Str) (n : Nat) (h : l1.length = n) :
    (l1 ++ l2).drop n = l2 := by
  subst h
  exact List.drop_left _ _

theorem take4_append (l2 : Str) (y : Nat) (hy : y ≤ 9999) :
    ((fmtMin 4 y ++ l2).take 4) = fmtMin 4 y :=
  take_append_of_length _ _ 4 (fmtMin4_length y hy)

theorem drop4_append (l2 : Str) (y : Nat) (hy : y ≤ 9999) :
    ((fmtMin 4 y ++ l2).drop 4) = l2 :=
  drop_append_of_length _ _ 4 (fmtMin4_length y hy)

theorem isDigits_append (a b : Str) :
    isDigits (a ++ b) = (isDigits a && isDigits b) := by
  simp [isDigits, List.all_append]

theorem fmtMonthly_length (y m : Nat) (hy : y ≤ 9999) (hm : m ≤ 99) :
    (fmtMonthly y m).length = 6 := by
  rw [fmtMonthly, List.length_append, fmtMin4_length y hy, fmtMin2_length m hm]

theorem fmtMonthly_digits (y m : Nat) : isDigits (fmtMonthly y m) = true := by
  rw [fmtMonthly, isDigits_append, isDigits_fmtMin, isDigits_fmtMin]
  rfl

theorem fmtQuarterly_length (y q : Nat) (hy : y ≤ 9999) :
    (fmtQuarterly y q).length = 6 := by
  rw [fmtQuarterly, List.length_append, fmtMin4_length y hy]
  rfl

theorem fmtYearly_length (y : Nat) (hy : y ≤ 9999) : (fmtYearly y).length = 4 :=
  fmtMin4_length y hy

theorem fmtBiMonthly_length (y n : Nat) (hy : y ≤ 9999) :
    (fmtBiMonthly y n).length = 6 := by
  rw [fmtBiMonthly, List.length_append, fmtMin4_length y hy]
  rfl

theorem isSpaceC_digitChar (k : Nat) (hk : k < 10) : isSpaceC (digitChar k) = false :=
  isSpaceC_of_isDigitC _ (isDigitC_digitChar k hk)

theorem pyStrip_fmtMonthly (y m : Nat) : pyStrip (fmtMonthly y m) = fmtMonthly y m :=
  pyStrip_of_isDigits _ (fmtMonthly_digits y m)

theorem pyStrip_fmtQuarterly (y q : Nat) (hq : q < 10) :
    pyStrip (fmtQuarterly y q) = fmtQuarterly y q := by
  apply pyStrip_eq_self
  intro c hc
  rw [fmtQuarterly] at hc
  rcases List.mem_append.mp hc with h | h
  · exact isSpaceC_of_isDigitC c (isDigits_mem _ (isDigits_fmtMin 4 y) h)
  · rcases List.mem_cons.mp h with rfl | h2
    · decide
    · rw [List.mem_singleton.mp h2]
      exact isSpaceC_digitChar q hq

theorem pyStrip_fmtYearly (y : Nat) : pyStrip (fmtYearly y) = fmtYearly y :=
  pyStrip_of_isDigits _ (isDigits_fmtMin 4 y)

theorem pyStrip_fmtBiMonthly (y n : Nat) (hn : n < 10) :
    pyStrip (fmtBiMonthly y n) = fmtBiMonthly y n := by
  apply pyStrip_eq_self
  intro c hc
  rw [fmtBiMonthly] at hc
  rcases List.mem_append.mp hc with h | h
  · exact isSpaceC_of_isDigitC c (isDigits_mem _ (isDigits_fmtMin 4 y) h)
  · rcases List.mem_cons.mp h with rfl | h2
    · decide
    · rw [List.mem_singleton.mp h2]
      exact isSpaceC_digitChar n hn

theorem mkDate_eq_some (y m d : Nat) (hy1 : 1 ≤ y) (hy : y ≤ 9999) (hm1 : 1 ≤ m) (hm : m ≤ 12)
    (hd1 : 1 ≤ d) (hd : d ≤ monthLength y m) : mkDate y m d = some ⟨y, m, d⟩ := by
  rw [mkDate, if_pos]
  simp only [Bool.and_eq_true, decide_eq_true_eq]
  omega

theorem beq_list_false_of_ne {a b : Str} (h : a ≠ b) : (a == b) = false :=
  beq_eq_false_iff_ne.mpr h

theorem matchRange_of_len (s : Str) (h : s.length ≠ 17) : matchRange s = false := by
  rw [matchRange]
  have : (s.length == 17) = false := by simp [h]
  simp [this]

theorem matchDaily_of_len (s : Str) (h : s.length ≠ 8) : matchDaily s = false := by
  rw [matchDaily]
  have : (s.length == 8) = false := by simp [h]
  simp [this]

theorem matchWeekly_of_len (s : Str) (h : s.length ≠ 7) : matchWeekly s = false := by
  rw [matchWeekly]
  have : (s.length == 7) = false := by simp [h]
  simp [this]

theorem matchQuarterly_of_len (s : Str) (h : s.length ≠ 6) : matchQuarterly s = false := by
  rw [matchQuarterly]
  have : (s.length == 6) = false := by simp [h]
  simp [this]

theorem matchSixMonthly_of_len (s : Str) (h : s.length ≠ 6) : matchSixMonthly s = false := by
  rw [matchSixMonthly]
  have : (s.length == 6) = false := by simp [h]
  simp [this]

theorem matchMonthly_of_len (s : Str) (h : s.length ≠ 6) : matchMonthly s = false := by
  rw [matchMonthly]
  have : (s.length == 6) = false := by simp [h]
  simp [this]

theorem matchYearly_of_len (s : Str) (h : s.length ≠ 4) : matchYearly s = false := by
  rw [matchYearly]
  have : (s.length == 4) = false := by simp [h]
  simp [this]

theorem matchQuarterly_fmtMonthly (y m : Nat) (hy : y ≤ 9999) :
    matchQuarterly (fmtMonthly y m) = false := by
  rw [matchQuarterly, fmtMonthly, drop4_append _ y hy]
  have hne : (fmtMin 2 m).take 1 ≠ ['Q'] :=
    take_one_ne_of_digits (fmtMin 2 m) (isDigits_fmtMin 2 m) 'Q' (by decide)
  simp [beq_list_false_of_ne hne]

theorem matchSixMonthly_fmtMonthly (y m : Nat) (hy : y ≤ 9999) :
    matchSixMonthly (fmtMonthly y m) = false := by
  rw [matchSixMonthly, fmtMonthly, drop4_append _ y hy]
  have hne : (fmtMin 2 m).take 1 ≠ ['S'] :=
    take_one_ne_of_digits (fmtMin 2 m) (isDigits_fmtMin 2 m) 'S' (by decide)
  simp [beq_list_false_of_ne hne]

theorem matchMonthly_fmtMonthly (y m : Nat) (hy : y ≤ 9999) (hm : m ≤ 99) :
    matchMonthly (fmtMonthly y m) = true := by
  rw [matchMonthly, fmtMonthly_length y m hy hm]
  simp [fmtMonthly_digits y m]

theorem fmtMonthly_take4 (y m : Nat) (hy : y ≤ 9999) :
    (fmtMonthly y m).take 4 = fmtMin 4 y := by
  rw [fmtMonthly]
  exact take4_append _ y hy

theorem fmtMonthly_drop4 (y m : Nat) (hy : y ≤ 9999) :
    (fmtMonthly y m).drop 4 = fmtMin 2 m := by
  rw [fmtMonthly]
  exact drop4_append _ y hy

/-- Round trip of the codec on a well-formed monthly id. -/
theorem period_start_end_fmtMonthly (y m : Nat) (hy1 : 1 ≤ y) (hy : y ≤ 9999)
    (hm1 : 1 ≤ m) (hm : m ≤ 12) :
    period_start_end (fmtMonthly y m) = .ok (⟨y, m, 1⟩, ⟨y, m, monthLength y m⟩) := by
  have hm99 : m ≤ 99 := by omega
  have hlen := fmtMonthly_length y m hy hm99
  have hR := matchRange_of_len (fmtMonthly y m) (by omega)
  have hD := matchDaily_of_len (fmtMonthly y m) (by omega)
  have hW := matchWeekly_of_len (fmtMonthly y m) (by omega)
  have hQ := matchQuarterly_fmtMonthly y m hy
  have hS := matchSixMonthly_fmtMonthly y m hy
  have hM := matchMonthly_fmtMonthly y m hy hm99
  rw [period_start_end]
  simp only [pyStrip_fmtMonthly y m, hR, hD, hW, hQ, hS, hM, Bool.false_eq_true, if_false,
    if_true]
  simp only [fmtMonthly_take4 y m hy, fmtMonthly_drop4 y m hy, digitsToNat_fmtMin]
  rw [if_pos ⟨hm1, hm⟩,
      mkDate_eq_some y m 1 hy1 hy hm1 hm (by omega) (monthLength_pos y m),
      mkDate_eq_some y m (monthLength y m) hy1 hy hm1 hm (monthLength_pos y m) (le_refl _)]

/-- Round trip of the sort key on a well-formed monthly id. -/
theorem period_key_fmtMonthly (y m : Nat) (hy : y ≤ 9999) (hm : m ≤ 99) :
    period_key (fmtMonthly y m) = some ((y : Int), (m : Int), 0) := by
  have hlen := fmtMonthly_length y m hy hm
  rw [period_key]
  rw [if_neg (by omega)]
  rw [if_neg (by
    intro hcon
    have := contains_eq_false_of_digits _ (fmtMonthly_digits y m) 'Q' (by decide)
    rw [this] at hcon
    exact Bool.false_ne_true hcon)]
  rw [fmtMonthly_take4 y m hy, fmtMonthly_drop4 y m hy,
      List.take_of_length_le (by rw [fmtMin2_length m hm]),
      pyInt_of_digits _ (fmtMin_ne_nil 4 y) (isDigits_fmtMin 4 y),
      pyInt_of_digits _ (fmtMin_ne_nil 2 m) (isDigits_fmtMin 2 m),
      digitsToNat_fmtMin, digitsToNat_fmtMin]

/-- Round trip of the sort key on a well-formed yearly id. -/
theorem period_key_fmtYearly (y : Nat) (hy : y ≤ 9999) :
    period_key (fmtYearly y) = some ((y : Int), 0, 0) := by
  rw [period_key, if_pos (fmtYearly_length y hy), fmtYearly,
      pyInt_of_digits _ (fmtMin_ne_nil 4 y) (isDigits_fmtMin 4 y), digitsToNat_fmtMin]
  rfl

/-- Round trip of the sort key on a well-formed quarterly id. -/
theorem period_key_fmtQuarterly (y q : Nat) (hy : y ≤ 9999) (hq : q < 10) :
    period_key (fmtQuarterly y q) = some ((y : Int), (q : Int), 0) := by
  have hlen := fmtQuarterly_length y q hy
  rw [period_key]
  rw [if_neg (by omega)]
  rw [if_pos (by
    apply List.elem_eq_true_of_mem
    rw [fmtQuarterly]
    exact List.mem_append.mpr (Or.inr (List.mem_cons_self _ _)))]
  have hlast : (fmtQuarterly y q).getLast? = some (digitChar q) := by
    rw [fmtQuarterly, show ('Q' :: [digitChar q]) = ['Q'] ++ [digitChar q] from rfl,
        ← List.append_assoc]
    simp
  have htake : (fmtQuarterly y q).take 4 = fmtMin 4 y := by
    rw [fmtQuarterly]
    exact take4_append _ y hy
  have h4 : pyInt (fmtMin 4 y) = some ((digitsToNat (fmtMin 4 y) : Int)) :=
    pyInt_of_digits _ (fmtMin_ne_nil 4 y) (isDigits_fmtMin 4 y)
  have hdq : pyInt [digitChar q] = some ((digitsToNat [digitChar q] : Int)) :=
    pyInt_of_digits [digitChar q] (by simp) (by simp [isDigits, isDigitC_digitChar q hq])
  have hval : digitsToNat [digitChar q] = q := by
    simp [digitsToNat, digitVal_digitChar q hq]
  simp [hlast, htake, h4, hdq, hval, digitsToNat_fmtMin]

theorem monthLength_12 (y : Nat) : monthLength y 12 = 31 := by
  rw [monthLength]
  norm_num

theorem qStartMonth_bound (q : Nat) (hq1 : 1 ≤ q) (hq : q ≤ 4) :
    1 ≤ qStartMonth q ∧ qStartMonth q ≤ 12 := by
  interval_cases q <;> decide

theorem qEndMonth_bound (q : Nat) (hq1 : 1 ≤ q) (hq : q ≤ 4) :
    1 ≤ qEndMonth q ∧ qEndMonth q ≤ 12 := by
  interval_cases q <;> decide

theorem fmtQuarterly_take4 (y q : Nat) (hy : y ≤ 9999) :
    (fmtQuarterly y q).take 4 = fmtMin 4 y := by
  rw [fmtQuarterly]
  exact take4_append _ y hy

theorem fmtQuarterly_drop4 (y q : Nat) (hy : y ≤ 9999) :
    (fmtQuarterly y q).drop 4 = 'Q' :: [digitChar q] := by
  rw [fmtQuarterly]
  exact drop4_append _ y hy

theorem fmtQuarterly_drop5 (y q : Nat) (hy : y ≤ 9999) :
    (fmtQuarterly y q).drop 5 = [digitChar q] := by
  have hsplit : fmtQuarterly y q = (fmtMin 4 y ++ ['Q']) ++ [digitChar q] := by
    rw [fmtQuarterly]
    simp
  rw [hsplit]
  exact drop_append_of_length _ _ 5 (by
    rw [List.length_append, fmtMin4_length y hy]
    rfl)

theorem matchQuarterly_fmtQuarterly (y q : Nat) (hy : y ≤ 9999) (hq1 : 1 ≤ q) (hq : q ≤ 4) :
    matchQuarterly (fmtQuarterly y q) = true := by
  rw [matchQuarterly, fmtQuarterly_length y q hy, fmtQuarterly_drop5 y q hy,
      fmtQuarterly_take4 y q hy, fmtQuarterly_drop4 y q hy]
  simp [isDigits_fmtMin, digitChar_toNat q (by omega)]
  omega

/-- Round trip of the codec on a well-formed quarterly id. -/
theorem period_start_end_fmtQuarterly (y q : Nat) (hy1 : 1 ≤ y) (hy : y ≤ 9999)
    (hq1 : 1 ≤ q) (hq : q ≤ 4) :
    period_start_end (fmtQuarterly y q) =
      .ok (⟨y, qStartMonth q, 1⟩, ⟨y, qEndMonth q, monthLength y (qEndMonth q)⟩) := by
  have hlen := fmtQuarterly_length y q hy
  have hR := matchRange_of_len (fmtQuarterly y q) (by omega)
  have hD := matchDaily_of_len (fmtQuarterly y q) (by omega)
  have hW := matchWeekly_of_len (fmtQuarterly y q) (by omega)
  have hQt := matchQuarterly_fmtQuarterly y q hy hq1 hq
  obtain ⟨hs1, hs2⟩ := qStartMonth_bound q hq1 hq
  obtain ⟨he1, he2⟩ := qEndMonth_bound q hq1 hq
  rw [period_start_end]
  simp only [pyStrip_fmtQuarterly y q (by omega), hR, hD, hW, hQt, Bool.false_eq_true,
    if_false, if_true]
  simp only [fmtQuarterly_take4 y q hy, fmtQuarterly_drop5 y q hy, digitsToNat_fmtMin,
    List.headD, digitVal_digitChar q (by omega)]
  rw [mkDate_eq_some y (qStartMonth q) 1 hy1 hy hs1 hs2 (by omega) (monthLength_pos _ _),
      mkDate_eq_some y (qEndMonth q) (monthLength y (qEndMonth q)) hy1 hy he1 he2
        (monthLength_pos _ _) (le_refl _)]

theorem matchYearly_fmtYearly (y : Nat) (hy : y ≤ 9999) :
    matchYearly (fmtYearly y) = true := by
  rw [matchYearly, fmtYearly_length y hy]
  simp [fmtYearly, isDigits_fmtMin]

/-- Round trip of the codec on a well-formed yearly id. -/
theorem period_start_end_fmtYearly (y : Nat) (hy1 : 1 ≤ y) (hy : y ≤ 9999) :
    period_start_end (fmtYearly y) = .ok (⟨y, 1, 1⟩, ⟨y, 12, 31⟩) := by
  have hlen := fmtYearly_length y hy
  have hR := matchRange_of_len (fmtYearly y) (by omega)
  have hD := matchDaily_of_len (fmtYearly y) (by omega)
  have hW := matchWeekly_of_len (fmtYearly y) (by omega)
  have hQ := matchQuarterly_of_len (fmtYearly y) (by omega)
  have hS := matchSixMonthly_of_len (fmtYearly y) (by omega)
  have hM := matchMonthly_of_len (fmtYearly y) (by omega)
  have hY := matchYearly_fmtYearly y hy
  rw [period_start_end]
  simp only [pyStrip_fmtYearly y, hR, hD, hW, hQ, hS, hM, hY, Bool.false_eq_true, if_false,
    if_true]
  simp only [fmtYearly, digitsToNat_fmtMin]
  rw [mkDate_eq_some y 1 1 hy1 hy (by omega) (by omega) (by omega) (monthLength_pos _ _),
      mkDate_eq_some y 12 31 hy1 hy (by omega) (by omega) (by omega) (by rw [monthLength_12])]

/-- Model of `next_period_id` on a well-formed monthly id takes the monthly branch. -/
theorem next_period_id_fmtMonthly (y m : Nat) (hy : y ≤ 9999) (hm : m ≤ 99) :
    next_period_id (fmtMonthly y m) =
      some (if m + 1 = 13 then fmtMin 4 (y + 1) ++ ['0', '1']
            else fmtMin 4 y ++ fmtMin 2 (m + 1)) := by
  have hlen := fmtMonthly_length y m hy hm
  have hD := matchDaily_of_len (fmtMonthly y m) (by omega)
  have hW := matchWeekly_of_len (fmtMonthly y m) (by omega)
  have hQ := matchQuarterly_fmtMonthly y m hy
  have hS := matchSixMonthly_fmtMonthly y m hy
  have hM := matchMonthly_fmtMonthly y m hy hm
  rw [next_period_id]
  simp only [pyStrip_fmtMonthly y m, hD, hW, hQ, hS, hM, Bool.false_eq_true, if_false, if_true]
  simp only [fmtMonthly_take4 y m hy, fmtMonthly_drop4 y m hy, digitsToNat_fmtMin]

-- ---------------------------------------------------------------------------
-- Lemmas: which id shapes the codec recognizes
-- ---------------------------------------------------------------------------

theorem pse_ne_unrec_of_matchRange (s : Str) (h : matchRange (pyStrip s) = true) :
    period_start_end s ≠ .error .unrecognizedPeriod := by
  rw [period_start_end]
  simp only [h, if_pos rfl]
  split <;> (try split) <;> (try split) <;> simp_all

theorem pse_ne_unrec_of_matchDaily (s : Str) (h0 : matchRange (pyStrip s) = false)
    (h : matchDaily (pyStrip s) = true) :
    period_start_end s ≠ .error .unrecognizedPeriod := by
  rw [period_start_end]
  simp only [h0, h, Bool.false_eq_true, if_false, if_pos rfl]
  split <;> (try split) <;> (try split) <;> simp_all

theorem pse_ne_unrec_of_matchWeekly (s : Str) (h0 : matchRange (pyStrip s) = false)
    (h1 : matchDaily (pyStrip s) = false) (h : matchWeekly (pyStrip s) = true) :
    period_start_end s ≠ .error .unrecognizedPeriod := by
  rw [period_start_end]
  simp only [h0, h1, h, Bool.false_eq_true, if_false, if_pos rfl]
  split <;> (try split) <;> (try split) <;> simp_all

theorem pse_ne_unrec_of_matchQuarterly (s : Str) (h0 : matchRange (pyStrip s) = false)
    (h1 : matchDaily (pyStrip s) = false) (h2 : matchWeekly (pyStrip s) = false)
    (h : matchQuarterly (pyStrip s) = true) :
    period_start_end s ≠ .error .unrecognizedPeriod := by
  rw [period_start_end]
  simp only [h0, h1, h2, h, Bool.false_eq_true, if_false, if_pos rfl]
  split <;> (try split) <;> (try split) <;> simp_all

theorem pse_ne_unrec_of_matchSixMonthly (s : Str) (h0 : matchRange (pyStrip s) = false)
    (h1 : matchDaily (pyStrip s) = false) (h2 : matchWeekly (pyStrip s) = false)
    (h3 : matchQuarterly (pyStrip s) = false) (h : matchSixMonthly (pyStrip s) = true) :
    period_start_end s ≠ .error .unrecognizedPeriod := by
  rw [period_start_end]
  simp only [h0, h1, h2, h3, h, Bool.false_eq_true, if_false, if_pos rfl]
  split <;> (try split) <;> (try split) <;> simp_all

theorem pse_ne_unrec_of_matchMonthly (s : Str) (h0 : matchRange (pyStrip s) = false)
    (h1 : matchDaily (pyStrip s) = false) (h2 : matchWeekly (pyStrip s) = false)
    (h3 : matchQuarterly (pyStrip s) = false) (h4 : matchSixMonthly (pyStrip s) = false)
    (h : matchMonthly (pyStrip s) = true) :
    period_start_end s ≠ .error .unrecognizedPeriod := by
  rw [period_start_end]
  simp only [h0, h1, h2, h3, h4, h, Bool.false_eq_true, if_false, if_pos rfl]
  split <;> (try split) <;> (try split) <;> simp_all

theorem pse_ne_unrec_of_matchYearly (s : Str) (h0 : matchRange (pyStrip s) = false)
    (h1 : matchDaily (pyStrip s) = false) (h2 : matchWeekly (pyStrip s) = false)
    (h3 : matchQuarterly (pyStrip s) = false) (h4 : matchSixMonthly (pyStrip s) = false)
    (h5 : matchMonthly (pyStrip s) = false) (h : matchYearly (pyStrip s) = true) :
    period_start_end s ≠ .error .unrecognizedPeriod := by
  rw [period_start_end]
  simp only [h0, h1, h2, h3, h4, h5, h, Bool.false_eq_true, if_false, if_pos rfl]
  split <;> (try split) <;> simp_all

theorem period_start_end_unrecognized_iff (s : Str) :
    period_start_end s = .error .unrecognizedPeriod ↔
      (matchRange (pyStrip s) = false ∧ matchDaily (pyStrip s) = false ∧
       matchWeekly (pyStrip s) = false ∧ matchQuarterly (pyStrip s) = false ∧
       matchSixMonthly (pyStrip s) = false ∧ matchMonthly (pyStrip s) = false ∧
       matchYearly (pyStrip s) = false) := by
  constructor
  · intro hEq
    by_cases h0 : matchRange (pyStrip s) = true
    · exact absurd hEq (pse_ne_unrec_of_matchRange s h0)
    rw [Bool.not_eq_true] at h0
    by_cases h1 : matchDaily (pyStrip s) = true
    · exact absurd hEq (pse_ne_unrec_of_matchDaily s h0 h1)
    rw [Bool.not_eq_true] at h1
    by_cases h2 : matchWeekly (pyStrip s) = true
    · exact absurd hEq (pse_ne_unrec_of_matchWeekly s h0 h1 h2)
    rw [Bool.not_eq_true] at h2
    by_cases h3 : matchQuarterly (pyStrip s) = true
    · exact absurd hEq (pse_ne_unrec_of_matchQuarterly s h0 h1 h2 h3)
    rw [Bool.not_eq_true] at h3
    by_cases h4 : matchSixMonthly (pyStrip s) = true
    · exact absurd hEq (pse_ne_unrec_of_matchSixMonthly s h0 h1 h2 h3 h4)
    rw [Bool.not_eq_true] at h4
    by_cases h5 : matchMonthly (pyStrip s) = true
    · exact absurd hEq (pse_ne_unrec_of_matchMonthly s h0 h1 h2 h3 h4 h5)
    rw [Bool.not_eq_true] at h5
    by_cases h6 : matchYearly (pyStrip s) = true
    · exact absurd hEq (pse_ne_unrec_of_matchYearly s h0 h1 h2 h3 h4 h5 h6)
    rw [Bool.not_eq_true] at h6
    exact ⟨h0, h1, h2, h3, h4, h5, h6⟩
  · intro ⟨h0, h1, h2, h3, h4, h5, h6⟩
    rw [period_start_end]
    simp only [h0, h1, h2, h3, h4, h5, h6, Bool.false_eq_true, if_false]

theorem head_of_take_one (l : Str) (c : Char) (h : l.take 1 = [c]) : ∃ rest, l = c :: rest := by
  cases l with
  | nil => simp at h
  | cons a as =>
    have : a = c := by simpa using h
    exact ⟨as, by rw [this]⟩

/-- A bi-monthly id `YYYYBn` matches none of the seven shapes the codec tries. -/
theorem no_shape_of_matchBiMonthly (t : Str) (hB : matchBiMonthly t = true) :
    matchRange t = false ∧ matchDaily t = false ∧ matchWeekly t = false ∧
    matchQuarterly t = false ∧ matchSixMonthly t = false ∧ matchMonthly t = false ∧
    matchYearly t = false := by
  rw [matchBiMonthly] at hB
  simp only [Bool.and_eq_true, beq_iff_eq] at hB
  obtain ⟨⟨⟨hlen, _hd4⟩, hb⟩, _h5⟩ := hB
  obtain ⟨rest, hrest⟩ := head_of_take_one _ _ hb
  have hBmem : 'B' ∈ t := by
    have h1 : 'B' ∈ t.drop 4 := by
      rw [hrest]
      exact List.mem_cons_self _ _
    have h2 : t.drop 4 ⊆ t := (List.drop_subset 4 t)
    exact h2 h1
  have hdigfalse : isDigits t = false := by
    cases hd : isDigits t
    · rfl
    · have := isDigits_mem t hd hBmem
      simp [isDigitC] at this
  refine ⟨matchRange_of_len t (by omega), matchDaily_of_len t (by omega),
    matchWeekly_of_len t (by omega), ?_, ?_, ?_, matchYearly_of_len t (by omega)⟩
  · rw [matchQuarterly, hb]
    simp
  · rw [matchSixMonthly, hb]
    simp
  · rw [matchMonthly, hdigfalse]
    simp

-- ---------------------------------------------------------------------------
-- Claim C1 (code_bug evidence)
-- ---------------------------------------------------------------------------

/-- C1: evaluation of the code at the failing input.  For
`latest_closed_period("BiMonthly", today = 2025-04-15, "iso8601")` the source
returns the pair Mar-Apr 2025 (id `2025B2`) whose end date 2025-04-30 is NOT
strictly before `today` — the pair is still in progress, contradicting both
the claim and the function's own "latest *closed* period" contract (the most
recently closed pair is Jan-Feb 2025, id `2025B1`). -/
theorem C1_bimonthly_returns_open_pair :
    latest_closed_period noLibs ("BiMonthly".toList) ⟨2025, 4, 15⟩ ("iso8601".toList) =
      .ok ⟨some ("2025B2".toList), "20250301_20250430".toList, ⟨2025, 3, 1⟩, ⟨2025, 4, 30⟩⟩ ∧
    ¬ date_lt ⟨2025, 4, 30⟩ ⟨2025, 4, 15⟩ :=
  ⟨rfl, by decide⟩

-- ---------------------------------------------------------------------------
-- Claim C3 (corrected)
-- ---------------------------------------------------------------------------

/-- C3 counterexample: the valid bi-monthly id `2025B1` is NOT parsed — the
codec rejects it with `unrecognizedPeriod`, so the claim that parse recognizes
the bi-monthly shape (and succeeds on every `YYYYBn`) is false. -/
theorem C3_counterexample_2025B1 :
    period_start_end ("2025B1".toList) = .error .unrecognizedPeriod := rfl

/-- C3 (amended): `period_start_end` recognizes exactly the shapes
date-range, daily, weekly, quarterly, six-monthly, monthly, yearly — it fails
with `unrecognizedPeriod` precisely when none of those seven shapes matches
the stripped id — and the bi-monthly shape `YYYYBn` is not among them: every
id of that shape is rejected with `unrecognizedPeriod`. -/
theorem C3_parse_shapes :
    (∀ s : Str, period_start_end s = .error .unrecognizedPeriod ↔
      (matchRange (pyStrip s) = false ∧ matchDaily (pyStrip s) = false ∧
       matchWeekly (pyStrip s) = false ∧ matchQuarterly (pyStrip s) = false ∧
       matchSixMonthly (pyStrip s) = false ∧ matchMonthly (pyStrip s) = false ∧
       matchYearly (pyStrip s) = false)) ∧
    (∀ s : Str, matchBiMonthly (pyStrip s) = true →
      period_start_end s = .error .unrecognizedPeriod) := by
  refine ⟨period_start_end_unrecognized_iff, fun s hB => ?_⟩
  exact (period_start_end_unrecognized_iff s).mpr (no_shape_of_matchBiMonthly _ hB)

/-- C3 witness: the amended theorem applied to the concrete id `2024B3`. -/
theorem C3_parse_shapes_witness :
    period_start_end ("2024B3".toList) = .error .unrecognizedPeriod :=
  C3_parse_shapes.2 ("2024B3".toList) (by decide)

-- ---------------------------------------------------------------------------
-- Claim C6 (corrected)
-- ---------------------------------------------------------------------------

/-- C6 counterexample: `999912` is a valid Monthly id (parse succeeds), but
its successor id is `1000001`, which has a 5-digit year and matches no shape,
so `parse(next("999912"))` raises — the adjacency claim fails there. -/
theorem C6_counterexample_999912 :
    period_start_end ("999912".toList) = .ok (⟨9999, 12, 1⟩, ⟨9999, 12, 31⟩) ∧
    next_period_id ("999912".toList) = some ("1000001".toList) ∧
    period_start_end ("1000001".toList) = .error .unrecognizedPeriod :=
  ⟨rfl, rfl, rfl⟩

/-- C6 (amended): for every Monthly id `YYYYMM` with year in 1..9999 and
month in 1..12 — except `999912`, whose successor leaves the 4-digit-year
grammar — the start date of `parse(next(id))` is exactly one day after the
end date of `parse(id)` (ordinal + 1: no gap, no overlap), including across
year rollovers. -/
theorem C6_monthly_next_adjacent (y m : Nat) (hy1 : 1 ≤ y) (hy : y ≤ 9999)
    (hm1 : 1 ≤ m) (hm : m ≤ 12) (hex : ¬(y = 9999 ∧ m = 12)) :
    ∃ nid r1 r2,
      next_period_id (fmtMonthly y m) = some nid ∧
      period_start_end (fmtMonthly y m) = .ok r1 ∧
      period_start_end nid = .ok r2 ∧
      toOrdinal r2.1 = toOrdinal r1.2 + 1 := by
  have hm99 : m ≤ 99 := by omega
  by_cases hm12 : m = 12
  · subst hm12
    have hy' : y ≤ 9998 := by
      by_contra hc
      exact hex ⟨by omega, rfl⟩
    have h01 : fmtMin 2 1 = ['0', '1'] := rfl
    refine ⟨fmtMonthly (y + 1) 1, (⟨y, 12, 1⟩, ⟨y, 12, monthLength y 12⟩),
      (⟨y + 1, 1, 1⟩, ⟨y + 1, 1, monthLength (y + 1) 1⟩), ?_, ?_, ?_, ?_⟩
    · rw [next_period_id_fmtMonthly y 12 hy hm99]
      rw [if_pos rfl, fmtMonthly, h01]
    · exact period_start_end_fmtMonthly y 12 hy1 hy (by omega) (by omega)
    · exact period_start_end_fmtMonthly (y + 1) 1 (by omega) (by omega) (by omega) (by omega)
    · show toOrdinal ⟨y + 1, 1, 1⟩ = toOrdinal ⟨y, 12, monthLength y 12⟩ + 1
      rw [monthLength_12]
      exact toOrdinal_next_year y hy1
  · have hm11 : m ≤ 11 := by omega
    refine ⟨fmtMonthly y (m + 1), (⟨y, m, 1⟩, ⟨y, m, monthLength y m⟩),
      (⟨y, m + 1, 1⟩, ⟨y, m + 1, monthLength y (m + 1)⟩), ?_, ?_, ?_, ?_⟩
    · rw [next_period_id_fmtMonthly y m hy hm99]
      rw [if_neg (by omega), fmtMonthly]
    · exact period_start_end_fmtMonthly y m hy1 hy hm1 hm
    · exact period_start_end_fmtMonthly y (m + 1) hy1 hy (by omega) (by omega)
    · exact toOrdinal_next_month y m hm1 hm11

/-- C6 witness: the amended adjacency applied across the 2025 → 2026 rollover. -/
theorem C6_monthly_next_adjacent_witness :
    ∃ nid r1 r2,
      next_period_id (fmtMonthly 2025 12) = some nid ∧
      period_start_end (fmtMonthly 2025 12) = .ok r1 ∧
      period_start_end nid = .ok r2 ∧
      toOrdinal r2.1 = toOrdinal r1.2 + 1 :=
  C6_monthly_next_adjacent 2025 12 (by decide) (by decide) (by decide) (by decide) (by decide)

-- ---------------------------------------------------------------------------
-- Claim C4 (corrected)
-- ---------------------------------------------------------------------------

theorem qStartMonth_strict_mono (q1 q2 : Nat) (h1 : 1 ≤ q1) (h2 : q1 ≤ 4) (h3 : 1 ≤ q2)
    (h4 : q2 ≤ 4) (h : qStartMonth q1 < qStartMonth q2) : q1 < q2 := by
  interval_cases q1 <;> interval_cases q2 <;> simp_all [qStartMonth]

theorem keyLt_of_lex (y1 s1 y2 s2 : Nat) (h : y1 < y2 ∨ (y1 = y2 ∧ s1 < s2)) :
    keyLt ((y1 : Int), (s1 : Int), 0) ((y2 : Int), (s2 : Int), 0) := by
  rcases h with h | ⟨rfl, h⟩
  · exact Or.inl (show (y1 : Int) < (y2 : Int) by exact_mod_cast h)
  · exact Or.inr ⟨rfl, Or.inl (show (s1 : Int) < (s2 : Int) by exact_mod_cast h)⟩

/-- C4 counterexample: `period_key` is undefined (raises) on the six-monthly
id `2025S1` and the weekly id `2025W01`, and the two distinct daily ids
`20250101` and `20250102` receive the same key — so neither "defined on every
period identifier kind" nor "distinct same-kind ids get distinct keys" holds. -/
theorem C4_counterexample_undefined_and_collapse :
    period_key ("2025S1".toList) = none ∧
    period_key ("2025W01".toList) = none ∧
    period_key ("20250101".toList) = period_key ("20250102".toList) ∧
    ("20250101".toList : Str) ≠ "20250102".toList := by
  refine ⟨rfl, rfl, rfl, by decide⟩

/-- C4 (amended): on yearly, quarterly, and monthly identifiers `sortKey` is
defined and totally orders same-kind identifiers consistently with
chronological order: whenever both ids of a kind parse and the first starts
strictly earlier, its key is strictly smaller (e.g.
sortKey("202511") < sortKey("202512") < sortKey("202601")). -/
theorem C4_sortKey_same_kind_order :
    (∀ y1 y2 r1 r2 k1 k2, 1 ≤ y1 → y1 ≤ 9999 → 1 ≤ y2 → y2 ≤ 9999 →
      period_start_end (fmtYearly y1) = .ok r1 →
      period_start_end (fmtYearly y2) = .ok r2 →
      toOrdinal r1.1 < toOrdinal r2.1 →
      period_key (fmtYearly y1) = some k1 →
      period_key (fmtYearly y2) = some k2 → keyLt k1 k2) ∧
    (∀ y1 q1 y2 q2 r1 r2 k1 k2, 1 ≤ y1 → y1 ≤ 9999 → 1 ≤ y2 → y2 ≤ 9999 →
      1 ≤ q1 → q1 ≤ 4 → 1 ≤ q2 → q2 ≤ 4 →
      period_start_end (fmtQuarterly y1 q1) = .ok r1 →
      period_start_end (fmtQuarterly y2 q2) = .ok r2 →
      toOrdinal r1.1 < toOrdinal r2.1 →
      period_key (fmtQuarterly y1 q1) = some k1 →
      period_key (fmtQuarterly y2 q2) = some k2 → keyLt k1 k2) ∧
    (∀ y1 m1 y2 m2 r1 r2 k1 k2, 1 ≤ y1 → y1 ≤ 9999 → 1 ≤ y2 → y2 ≤ 9999 →
      1 ≤ m1 → m1 ≤ 12 → 1 ≤ m2 → m2 ≤ 12 →
      period_start_end (fmtMonthly y1 m1) = .ok r1 →
      period_start_end (fmtMonthly y2 m2) = .ok r2 →
      toOrdinal r1.1 < toOrdinal r2.1 →
      period_key (fmtMonthly y1 m1) = some k1 →
      period_key (fmtMonthly y2 m2) = some k2 → keyLt k1 k2) := by
  refine ⟨?_, ?_, ?_⟩
  · intro y1 y2 r1 r2 k1 k2 hy11 hy12 hy21 hy22 hp1 hp2 hord hk1 hk2
    rw [period_start_end_fmtYearly y1 hy11 hy12] at hp1
    rw [period_start_end_fmtYearly y2 hy21 hy22] at hp2
    rw [period_key_fmtYearly y1 hy12] at hk1
    rw [period_key_fmtYearly y2 hy22] at hk2
    obtain rfl : r1 = (⟨y1, 1, 1⟩, ⟨y1, 12, 31⟩) := by injection hp1 with h; exact h.symm
    obtain rfl : r2 = (⟨y2, 1, 1⟩, ⟨y2, 12, 31⟩) := by injection hp2 with h; exact h.symm
    obtain rfl : k1 = ((y1 : Int), 0, 0) := by injection hk1 with h; exact h.symm
    obtain rfl : k2 = ((y2 : Int), 0, 0) := by injection hk2 with h; exact h.symm
    have hlex := (toOrdinal_start_lt_iff y1 1 y2 1 hy11 hy21 (by omega) (by omega) (by omega)
      (by omega)).mp hord
    exact keyLt_of_lex y1 0 y2 0 (by omega)
  · intro y1 q1 y2 q2 r1 r2 k1 k2 hy11 hy12 hy21 hy22 hq11 hq12 hq21 hq22 hp1 hp2 hord hk1 hk2
    rw [period_start_end_fmtQuarterly y1 q1 hy11 hy12 hq11 hq12] at hp1
    rw [period_start_end_fmtQuarterly y2 q2 hy21 hy22 hq21 hq22] at hp2
    rw [period_key_fmtQuarterly y1 q1 hy12 (by omega)] at hk1
    rw [period_key_fmtQuarterly y2 q2 hy22 (by omega)] at hk2
    obtain rfl : r1 = (⟨y1, qStartMonth q1, 1⟩, ⟨y1, qEndMonth q1, monthLength y1 (qEndMonth q1)⟩) := by
      injection hp1 with h; exact h.symm
    obtain rfl : r2 = (⟨y2, qStartMonth q2, 1⟩, ⟨y2, qEndMonth q2, monthLength y2 (qEndMonth q2)⟩) := by
      injection hp2 with h; exact h.symm
    obtain rfl : k1 = ((y1 : Int), (q1 : Int), 0) := by injection hk1 with h; exact h.symm
    obtain rfl : k2 = ((y2 : Int), (q2 : Int), 0) := by injection hk2 with h; exact h.symm
    obtain ⟨hs11, hs12⟩ := qStartMonth_bound q1 hq11 hq12
    obtain ⟨hs21, hs22⟩ := qStartMonth_bound q2 hq21 hq22
    have hlex := (toOrdinal_start_lt_iff y1 (qStartMonth q1) y2 (qStartMonth q2) hy11 hy21
      hs11 hs12 hs21 hs22).mp hord
    apply keyLt_of_lex
    rcases hlex with h | ⟨heq, hlt⟩
    · exact Or.inl h
    · exact Or.inr ⟨heq, qStartMonth_strict_mono q1 q2 hq11 hq12 hq21 hq22 hlt⟩
  · intro y1 m1 y2 m2 r1 r2 k1 k2 hy11 hy12 hy21 hy22 hm11 hm12 hm21 hm22 hp1 hp2 hord hk1 hk2
    rw [period_start_end_fmtMonthly y1 m1 hy11 hy12 hm11 hm12] at hp1
    rw [period_start_end_fmtMonthly y2 m2 hy21 hy22 hm21 hm22] at hp2
    rw [period_key_fmtMonthly y1 m1 hy12 (by omega)] at hk1
    rw [period_key_fmtMonthly y2 m2 hy22 (by omega)] at hk2
    obtain rfl : r1 = (⟨y1, m1, 1⟩, ⟨y1, m1, monthLength y1 m1⟩) := by
      injection hp1 with h; exact h.symm
    obtain rfl : r2 = (⟨y2, m2, 1⟩, ⟨y2, m2, monthLength y2 m2⟩) := by
      injection hp2 with h; exact h.symm
    obtain rfl : k1 = ((y1 : Int), (m1 : Int), 0) := by injection hk1 with h; exact h.symm
    obtain rfl : k2 = ((y2 : Int), (m2 : Int), 0) := by injection hk2 with h; exact h.symm
    have hlex := (toOrdinal_start_lt_iff y1 m1 y2 m2 hy11 hy21 hm11 hm12 hm21 hm22).mp hord
    exact keyLt_of_lex y1 m1 y2 m2 hlex

/-- C4 witness: the amended ordering applied to the claim's own example pair
202511 < 202512 (and the year rollover pair 202512 < 202601). -/
theorem C4_sortKey_same_kind_order_witness :
    keyLt ((2025 : Int), (11 : Int), 0) ((2025 : Int), (12 : Int), 0) ∧
    keyLt ((2025 : Int), (12 : Int), 0) ((2026 : Int), (1 : Int), 0) :=
  ⟨C4_sortKey_same_kind_order.2.2 2025 11 2025 12 _ _ _ _ (by decide) (by decide) (by decide)
      (by decide) (by decide) (by decide) (by decide) (by decide) rfl rfl (by decide) rfl rfl,
   C4_sortKey_same_kind_order.2.2 2025 12 2026 1 _ _ _ _ (by decide) (by decide) (by decide)
      (by decide) (by decide) (by decide) (by decide) (by decide) rfl rfl (by decide) rfl rfl⟩

-- ---------------------------------------------------------------------------
-- Claim C8 (corrected)
-- ---------------------------------------------------------------------------


theorem mkDateI_eq_some (y m d : Int) (hy1 : 1 ≤ y) (hy : y ≤ 9999) (hm1 : 1 ≤ m)
    (hm : m ≤ 12) (hd1 : 1 ≤ d) (hd : d.toNat ≤ monthLength y.toNat m.toNat) :
    mkDateI y m d = some ⟨y.toNat, m.toNat, d.toNat⟩ := by
  rw [mkDateI, if_pos (by simp only [Bool.and_eq_true, decide_eq_true_eq]; omega)]
  exact mkDate_eq_some _ _ _ (by omega) (by omega) (by omega) (by omega) (by omega) hd

theorem gregBoundsI_eq (y : Int) (h1 : 1 ≤ y) (h2 : y ≤ 9999) :
    gregBoundsI y = some (⟨y.toNat, 1, 1⟩, ⟨y.toNat, 12, 31⟩) := by
  rw [gregBoundsI,
      mkDateI_eq_some y 1 1 h1 h2 (by omega) (by omega) (by omega)
        (monthLength_pos _ _),
      mkDateI_eq_some y 12 31 h1 h2 (by omega) (by omega) (by omega)
        (by have h12 : monthLength y.toNat (Int.toNat 12) = 31 := by
              rw [show Int.toNat 12 = 12 from rfl, monthLength_12]
            omega)]
  rfl

/-- C8 counterexample: at year label 0 the Gregorian fallback itself fails —
`date(0, 1, 1)` is outside the representable range, so
`calendar_year_bounds_for("gregorian", 0)` raises rather than returning the
Gregorian bounds, refuting "never raises, for every year label". -/
theorem C8_counterexample_year_zero :
    calendar_year_bounds_for noLibs ("gregorian".toList) 0 = none := rfl

/-- C8 (amended): in every Gregorian-fallback case — Gregorian-family id,
unknown id, or known non-Gregorian id with its conversion library missing —
the year-bounds operations do not fail and return the Gregorian year bounds,
for every year label in the representable range 1..9999 (and, for the
current-year operation, for every representable date): Jan 1 – Dec 31 of the
year equal to the year label. -/
theorem C8_year_bounds_greg_fallback :
    (∀ (libs : CalLibs) (calendar_id : Str) (y : Int), usesGregFallback libs calendar_id →
      1 ≤ y → y ≤ 9999 →
      calendar_year_bounds_for libs calendar_id y =
        some (⟨y.toNat, 1, 1⟩, ⟨y.toNat, 12, 31⟩)) ∧
    (∀ (libs : CalLibs) (calendar_id : Str) (today : Date), usesGregFallback libs calendar_id →
      1 ≤ today.year → today.year ≤ 9999 →
      calendar_year_bounds libs calendar_id today =
        some ((today.year : Int), (⟨today.year, 1, 1⟩, ⟨today.year, 12, 31⟩))) := by
  constructor
  · intro libs calendar_id y hfb hy1 hy2
    rw [calendar_year_bounds_for]
    rcases hfb with hg | hn
    · rw [if_pos hg]
      exact gregBoundsI_eq y hy1 hy2
    · by_cases hg : isGregFamily (calOrDefault calendar_id) = true
      · rw [if_pos hg]
        exact gregBoundsI_eq y hy1 hy2
      · rw [if_neg hg, Option.isNone_iff_eq_none.mp hn]
        exact gregBoundsI_eq y hy1 hy2
  · intro libs calendar_id today hfb hy1 hy2
    have hb : gregBoundsN today.year = some (⟨today.year, 1, 1⟩, ⟨today.year, 12, 31⟩) := by
      rw [gregBoundsN,
          mkDate_eq_some today.year 1 1 hy1 hy2 (by omega) (by omega) (by omega)
            (monthLength_pos _ _),
          mkDate_eq_some today.year 12 31 hy1 hy2 (by omega) (by omega) (by omega)
            (by rw [monthLength_12])]
    rw [calendar_year_bounds]
    rcases hfb with hg | hn
    · rw [if_pos hg, hb]
      rfl
    · by_cases hg : isGregFamily (calOrDefault calendar_id) = true
      · rw [if_pos hg, hb]
        rfl
      · rw [if_neg hg, Option.isNone_iff_eq_none.mp hn, hb]
        rfl

/-- C8 witness: the amended theorem applied to the unknown calendar id
"klingon" at year label 2025. -/
theorem C8_year_bounds_greg_fallback_witness :
    calendar_year_bounds_for noLibs ("klingon".toList) 2025 =
      some (⟨(2025 : Int).toNat, 1, 1⟩, ⟨(2025 : Int).toNat, 12, 31⟩) :=
  C8_year_bounds_greg_fallback.1 noLibs ("klingon".toList) 2025 (by decide) (by decide)
    (by decide)

-- ---------------------------------------------------------------------------
-- Claim C9 (aggregation order-independence)
-- ---------------------------------------------------------------------------

theorem keyLt_irrefl (k : Int × Int × Int) : ¬ keyLt k k := by
  rcases k with ⟨k1, k2, k3⟩
  simp only [keyLt]
  omega

theorem keyLt_trans (a b c : Int × Int × Int) (h1 : keyLt a b) (h2 : keyLt b c) :
    keyLt a c := by
  rcases a with ⟨a1, a2, a3⟩
  rcases b with ⟨b1, b2, b3⟩
  rcases c with ⟨c1, c2, c3⟩
  simp only [keyLt] at *
  omega

theorem keyLt_below (a b c : Int × Int × Int) (h1 : keyLt a b) (h2 : ¬ keyLt c b) :
    keyLt a c := by
  rcases a with ⟨a1, a2, a3⟩
  rcases b with ⟨b1, b2, b3⟩
  rcases c with ⟨c1, c2, c3⟩
  simp only [keyLt] at *
  omega

theorem keyLt_total_eq (a b : Int × Int × Int) (h1 : ¬ keyLt a b) (h2 : ¬ keyLt b a) :
    a = b := by
  rcases a with ⟨a1, a2, a3⟩
  rcases b with ⟨b1, b2, b3⟩
  simp only [keyLt] at *
  simp only [Prod.mk.injEq]
  omega

/-- Specification of the fold of Python `max(·, key=period_key)`: when every
key is defined, it returns an element of the input whose key is maximal. -/
theorem pyMaxByKeyAux_spec (l : List Str) :
    ∀ (cur : Str) (ck : Int × Int × Int), period_key cur = some ck →
      (∀ x ∈ l, (period_key x).isSome = true) →
      ∃ m km, pyMaxByKeyAux cur ck l = some m ∧ period_key m = some km ∧
        (m = cur ∨ m ∈ l) ∧ ¬ keyLt km ck ∧
        (∀ x kx, x ∈ l → period_key x = some kx → ¬ keyLt km kx) := by
  induction l with
  | nil =>
    intro cur ck hck _
    exact ⟨cur, ck, rfl, hck, Or.inl rfl, keyLt_irrefl ck, by simp⟩
  | cons y ys ih =>
    intro cur ck hck hall
    have hy : (period_key y).isSome = true := hall y (List.mem_cons_self _ _)
    obtain ⟨ky, hky⟩ := Option.isSome_iff_exists.mp hy
    have hys : ∀ x ∈ ys, (period_key x).isSome = true :=
      fun x hx => hall x (List.mem_cons_of_mem _ hx)
    simp only [pyMaxByKeyAux, hky]
    by_cases hlt : keyLtB ck ky = true
    · rw [if_pos hlt]
      obtain ⟨m, km, hm1, hm2, hm3, hm4, hm5⟩ := ih y ky hky hys
      have hcklt : keyLt ck ky := of_decide_eq_true hlt
      refine ⟨m, km, hm1, hm2, ?_, ?_, ?_⟩
      · rcases hm3 with rfl | hmem
        · exact Or.inr (List.mem_cons_self _ _)
        · exact Or.inr (List.mem_cons_of_mem _ hmem)
      · intro hcon
        exact hm4 (keyLt_trans km ck ky hcon hcklt)
      · intro x kx hx hkx
        rcases List.mem_cons.mp hx with rfl | hxm
        · rw [hky] at hkx
          injection hkx with h
          subst h
          exact hm4
        · exact hm5 x kx hxm hkx
    · rw [if_neg hlt]
      have hnlt : ¬ keyLt ck ky := fun hc => hlt (decide_eq_true hc)
      obtain ⟨m, km, hm1, hm2, hm3, hm4, hm5⟩ := ih cur ck hck hys
      refine ⟨m, km, hm1, hm2, ?_, hm4, ?_⟩
      · rcases hm3 with rfl | hmem
        · exact Or.inl rfl
        · exact Or.inr (List.mem_cons_of_mem _ hmem)
      · intro x kx hx hkx
        rcases List.mem_cons.mp hx with rfl | hxm
        · rw [hky] at hkx
          injection hkx with h
          subst h
          intro hcon
          exact hm4 (keyLt_below km ky ck hcon hnlt)
        · exact hm5 x kx hxm hkx

theorem pyMaxByKey_spec (l : List Str) (hne : l ≠ [])
    (hall : ∀ x ∈ l, (period_key x).isSome = true) :
    ∃ m km, pyMaxByKey l = some m ∧ period_key m = some km ∧ m ∈ l ∧
      (∀ x kx, x ∈ l → period_key x = some kx → ¬ keyLt km kx) := by
  cases l with
  | nil => exact absurd rfl hne
  | cons x xs =>
    have hx : (period_key x).isSome = true := hall x (List.mem_cons_self _ _)
    obtain ⟨kx, hkx⟩ := Option.isSome_iff_exists.mp hx
    rw [pyMaxByKey, hkx]
    obtain ⟨m, km, hm1, hm2, hm3, hm4, hm5⟩ :=
      pyMaxByKeyAux_spec xs x kx hkx (fun z hz => hall z (List.mem_cons_of_mem _ hz))
    refine ⟨m, km, hm1, hm2, ?_, ?_⟩
    · rcases hm3 with rfl | hmem
      · exact List.mem_cons_self _ _
      · exact List.mem_cons_of_mem _ hmem
    · intro z kz hz hkz
      rcases List.mem_cons.mp hz with rfl | hzm
      · rw [hkx] at hkz
        injection hkz with h
        subst h
        exact hm4
      · exact hm5 z kz hzm hkz

/-- C9: the scan's aggregation step — collect the distinct period codes, then
take the maximum by `period_key` — is order-independent: two collections with
the same members, on which keys are defined and distinct codes have distinct
keys, select the same latest period, regardless of which organisation unit,
chunk, or position reported it. -/
theorem C9_aggregation_order_independent (l1 l2 : List Str)
    (hmem1 : ∀ x ∈ l1, x ∈ l2) (hmem2 : ∀ x ∈ l2, x ∈ l1)
    (hdef : ∀ x ∈ l1, (period_key x).isSome = true)
    (hinj : ∀ x ∈ l1, ∀ y ∈ l1, x ≠ y → period_key x ≠ period_key y) :
    aggregate_latest l1 = aggregate_latest l2 := by
  unfold aggregate_latest
  by_cases h1 : l1 = []
  · subst h1
    have h2 : l2 = [] := by
      cases l2 with
      | nil => rfl
      | cons a as => exact absurd (hmem2 a (List.mem_cons_self _ _)) (by simp)
    subst h2
    rfl
  · have h2 : l2 ≠ [] := by
      intro hc
      subst hc
      cases l1 with
      | nil => exact h1 rfl
      | cons a as => exact absurd (hmem1 a (List.mem_cons_self _ _)) (by simp)
    have hd1 : l1.dedup ≠ [] := by
      intro hc
      cases hl : l1 with
      | nil => exact h1 hl
      | cons a as =>
        have : a ∈ l1.dedup := List.mem_dedup.mpr (by rw [hl]; exact List.mem_cons_self _ _)
        rw [hc] at this
        simp at this
    have hd2 : l2.dedup ≠ [] := by
      intro hc
      cases hl : l2 with
      | nil => exact h2 hl
      | cons a as =>
        have : a ∈ l2.dedup := List.mem_dedup.mpr (by rw [hl]; exact List.mem_cons_self _ _)
        rw [hc] at this
        simp at this
    obtain ⟨m1, km1, he1, hk1, hmm1, hmax1⟩ :=
      pyMaxByKey_spec l1.dedup hd1 (fun x hx => hdef x (List.mem_dedup.mp hx))
    obtain ⟨m2, km2, he2, hk2, hmm2, hmax2⟩ :=
      pyMaxByKey_spec l2.dedup hd2 (fun x hx => hdef x (hmem2 x (List.mem_dedup.mp hx)))
    have hm1l1 : m1 ∈ l1 := List.mem_dedup.mp hmm1
    have hm2l1 : m2 ∈ l1 := hmem2 m2 (List.mem_dedup.mp hmm2)
    have hmax1' : ¬ keyLt km1 km2 :=
      hmax1 m2 km2 (List.mem_dedup.mpr (hmem1 m2 hm2l1 |> fun h => hmem2 m2 (by
        exact List.mem_dedup.mp hmm2))) hk2
    have hmax2' : ¬ keyLt km2 km1 :=
      hmax2 m1 km1 (List.mem_dedup.mpr (hmem1 m1 hm1l1)) hk1
    have hkeq : km2 = km1 := keyLt_total_eq km2 km1 hmax2' hmax1'
    have hmeq : m1 = m2 := by
      by_contra hne
      exact hinj m1 hm1l1 m2 hm2l1 hne (by rw [hk1, hk2, hkeq])
    rw [he1, he2, hmeq]

/-- C9 witness: two orderings of the same period-code collection aggregate to
the same latest period. -/
theorem C9_aggregation_order_independent_witness :
    aggregate_latest ["202501".toList, "202510".toList] =
      aggregate_latest ["202510".toList, "202501".toList] :=
  C9_aggregation_order_independent ["202501".toList, "202510".toList]
    ["202510".toList, "202501".toList] (by decide) (by decide) (by decide) (by decide)

-- ---------------------------------------------------------------------------
-- Scanner lemmas
-- ---------------------------------------------------------------------------


theorem resolve_error_isConfig (links : List DataSetRef) (e : ScanError)
    (h : resolve_period_type links = .error e) : isConfigError e = true := by
  rw [resolve_period_type] at h
  dsimp only at h
  split at h
  · injection h with h2
    rw [← h2]
    rfl
  · split at h
    · injection h with h2
      rw [← h2]
      rfl
    · split at h
      · exact absurd h (by simp)
      · injection h with h2
        rw [← h2]
        rfl

theorem resolve_eq_of_configBad (links : List DataSetRef) (hcb : configBad links) :
    ∃ e, resolve_period_type links = .error e := by
  rw [resolve_period_type]
  dsimp only
  by_cases h1 : dsInfos links = []
  · exact ⟨_, by rw [if_pos h1]⟩
  · rw [if_neg h1]
    by_cases h2 : 1 < (uniquePts links).length
    · exact ⟨_, by rw [if_pos h2]⟩
    · rw [if_neg h2]
      have h3 : (uniquePts links).headD [] ∉ supportedPeriodTypes := by
        rcases hcb with hc | hc | hc
        · exact absurd hc h1
        · exact absurd hc h2
        · exact hc
      exact ⟨_, by rw [if_neg h3]⟩

theorem configBad_of_resolve_error (links : List DataSetRef) (e : ScanError)
    (h : resolve_period_type links = .error e) : configBad links := by
  rw [resolve_period_type] at h
  dsimp only at h
  split at h
  · next h1 => exact Or.inl h1
  · split at h
    · next h2 => exact Or.inr (Or.inl h2)
    · split at h
      · exact absurd h (by simp)
      · next h3 => exact Or.inr (Or.inr h3)

theorem resolve_inconsistent (links : List DataSetRef) (h1 : dsInfos links ≠ [])
    (h2 : 1 < (uniquePts links).length) :
    resolve_period_type links = .error (.inconsistentFrequency (uniquePts links)
      (dsInfos links)) := by
  rw [resolve_period_type]
  dsimp only
  rw [if_neg h1, if_pos h2]

/-- Errors arising inside the year loop are never configuration errors. -/
theorem scanPrevYears_error_nonconfig (env : ScanEnv) (cal : Str) (label : Int) :
    ∀ (fuel : Nat) (k : Int) (yc : Nat) (log : WindowLog) (e : ScanError),
      (scanPrevYears env cal label fuel k yc log).1 = .error e → isConfigError e = false := by
  intro fuel
  induction fuel with
  | zero =>
    intro k yc log e h
    exact absurd h (by simp [scanPrevYears])
  | succ fuel ih =>
    intro k yc log e h
    rw [scanPrevYears] at h
    dsimp only at h
    split at h
    · injection h with h2
      rw [← h2]
      rfl
    · split at h
      · exact ih (k + 1) (k + 1).toNat _ e h
      · split at h
        · injection h with h2
          rw [← h2]
          rfl
        · exact absurd h (by simp)

/-- After a successful period-type resolution, any error the scan raises is a
date or data error, never a configuration error. -/
theorem scan_error_nonconfig (env : ScanEnv) (pt : Str)
    (hres : resolve_period_type env.dataSetElements = .ok pt) :
    ∀ e, (latest_period_for_level env).1 = .error e → isConfigError e = false := by
  intro e h
  rw [latest_period_for_level] at h
  rw [hres] at h
  split at h
  · next heq => exact absurd heq (by simp)
  · next pt2 heq =>
    split at h
    · simp at h
    · split at h
      · have he : ScanError.calendarOutOfRange = e := by simpa using h
        rw [← he]
        rfl
      · dsimp only at h
        split at h
        · next e2 log heq2 =>
          have he : e2 = e := by simpa using h
          rw [← he]
          split at heq2
          · exact scanPrevYears_error_nonconfig env _ _ 30 1 1 _ e2
              (by rw [heq2])
          · split at heq2
            · have : ScanError.periodMathFailure = e2 := by
                have := congrArg Prod.fst heq2
                simpa using this
              rw [← this]
              rfl
            · exfalso
              have := congrArg Prod.fst heq2
              simp at this
        · next yc log heq2 => simp at h
        · next pid yc log heq2 =>
          split at h
          · split at h
            · simp at h
            · have he : ScanError.periodMathFailure = e := by simpa using h
              rw [← he]
              rfl
          · have he : ScanError.periodMathFailure = e := by simpa using h
            rw [← he]
            rfl

theorem scan_of_resolve_error (env : ScanEnv) (e : ScanError)
    (hres : resolve_period_type env.dataSetElements = .error e) :
    latest_period_for_level env = (.error e, []) := by
  rw [latest_period_for_level, hres]

-- ---------------------------------------------------------------------------
-- Claim C5 (corrected)
-- ---------------------------------------------------------------------------


/-- C5 counterexample: a metric linked to exactly ONE dataset whose frequency
is WEEKLY — neither zero period types nor more than one distinct type — still
raises (UnsupportedPeriodType), refuting the claimed "if and only if". -/
theorem C5_counterexample_single_weekly :
    dsInfos envSingleWeekly.dataSetElements ≠ [] ∧
    (uniquePts envSingleWeekly.dataSetElements).length = 1 ∧
    (latest_period_for_level envSingleWeekly).1 =
      .error (.unsupportedPeriodType ("WEEKLY".toList)) :=
  ⟨by decide, by decide, rfl⟩

/-- C5 (amended): `latest_period_for_level` raises one of the three
configuration errors iff the dataset linkages yield zero period types
(UnresolvedFrequency), more than one distinct type (InconsistentFrequency),
or a single type that is not MONTHLY/QUARTERLY/YEARLY
(UnsupportedPeriodType); any such error is raised before any data-window
query is issued, and the InconsistentFrequency error carries the conflicting
types and their datasets. -/
theorem C5_config_error_characterization (env : ScanEnv) :
    ((∃ e, (latest_period_for_level env).1 = .error e ∧ isConfigError e = true) ↔
      configBad env.dataSetElements) ∧
    (∀ e, (latest_period_for_level env).1 = .error e → isConfigError e = true →
      (latest_period_for_level env).2 = []) ∧
    (dsInfos env.dataSetElements ≠ [] → 1 < (uniquePts env.dataSetElements).length →
      (latest_period_for_level env).1 =
        .error (.inconsistentFrequency (uniquePts env.dataSetElements)
          (dsInfos env.dataSetElements))) := by
  refine ⟨⟨?_, ?_⟩, ?_, ?_⟩
  · rintro ⟨e, he, hce⟩
    cases hres : resolve_period_type env.dataSetElements with
    | error e2 => exact configBad_of_resolve_error _ e2 hres
    | ok pt =>
      rw [scan_error_nonconfig env pt hres e he] at hce
      exact absurd hce (by simp)
  · intro hcb
    obtain ⟨e, hres⟩ := resolve_eq_of_configBad _ hcb
    exact ⟨e, by rw [scan_of_resolve_error env e hres],
      resolve_error_isConfig _ e hres⟩
  · intro e he hce
    cases hres : resolve_period_type env.dataSetElements with
    | error e2 => rw [scan_of_resolve_error env e2 hres]
    | ok pt =>
      rw [scan_error_nonconfig env pt hres e he] at hce
      exact absurd hce (by simp)
  · intro h1 h2
    rw [scan_of_resolve_error env _ (resolve_inconsistent _ h1 h2)]

/-- C5 witness: the amended characterization applied to the mixed
Monthly/Quarterly configuration — the scan fails with
InconsistentFrequency listing both types and both datasets. -/
theorem C5_config_error_characterization_witness :
    (latest_period_for_level envMixedFrequencies).1 =
      .error (.inconsistentFrequency (uniquePts envMixedFrequencies.dataSetElements)
        (dsInfos envMixedFrequencies.dataSetElements)) :=
  (C5_config_error_characterization envMixedFrequencies).2.2 (by decide) (by decide)

-- ---------------------------------------------------------------------------
-- Claim C7 (confirmed)
-- ---------------------------------------------------------------------------


/-- C7: when the period type resolves and the organisation-unit set for the
level is empty, the scan returns a non-error result with existing = none,
next = none and years_checked = 0, and its window log is empty — no
data-window query is issued at all. -/
theorem C7_empty_level_short_circuit (env : ScanEnv) (pt : Str)
    (hres : resolve_period_type env.dataSetElements = .ok pt)
    (hou : env.orgUnits = []) :
    latest_period_for_level env =
      (.ok ⟨env.de_uid, env.level, pt, resolved_calendar env, 0, none, none⟩, []) := by
  rw [latest_period_for_level, hres]
  dsimp only
  rw [if_pos hou]

/-- C7 witness: the short circuit evaluated on a concrete environment. -/
theorem C7_empty_level_short_circuit_witness :
    latest_period_for_level envNoOrgUnits =
      (.ok ⟨envNoOrgUnits.de_uid, envNoOrgUnits.level, "MONTHLY".toList,
        resolved_calendar envNoOrgUnits, 0, none, none⟩, []) :=
  C7_empty_level_short_circuit envNoOrgUnits ("MONTHLY".toList) rfl rfl

-- ---------------------------------------------------------------------------
-- Claim C2 (corrected)
-- ---------------------------------------------------------------------------

/-- When every queried window is empty, the year loop runs all 30 iterations,
finds nothing, leaves `years_checked` at 31, and logs one window per
iteration. -/
theorem scanPrevYears_all_empty (env : ScanEnv) (cal : Str) (label : Int)
    (hb : ∀ j : Nat, j < 31 →
      (calendar_year_bounds_for env.libs cal (label - j)).isSome = true)
    (hf : ∀ s e : Date, fetch_periods_window env s e = []) :
    ∀ (fuel : Nat) (k : Int) (yc : Nat) (log : WindowLog),
      1 ≤ k → k.toNat + fuel ≤ 31 →
      (scanPrevYears env cal label fuel k yc log).1 =
        .ok (none, if fuel = 0 then yc else k.toNat + fuel) ∧
      (scanPrevYears env cal label fuel k yc log).2.length = log.length + fuel := by
  intro fuel
  induction fuel with
  | zero =>
    intro k yc log _ _
    simp [scanPrevYears]
  | succ fuel ih =>
    intro k yc log hk1 hk2
    have hkc : ((k.toNat : Int)) = k := Int.toNat_of_nonneg (by omega)
    have hsome := hb k.toNat (by omega)
    obtain ⟨b, hbk⟩ := Option.isSome_iff_exists.mp hsome
    rcases b with ⟨bs, be⟩
    rw [scanPrevYears]
    rw [show label - k = label - (k.toNat : Int) from by omega, hbk]
    dsimp only
    rw [hf bs be, if_pos rfl]
    obtain ⟨ih1, ih2⟩ := ih (k + 1) (k + 1).toNat (log ++ [(bs, be)]) (by omega) (by omega)
    constructor
    · rw [ih1]
      have harith : (if fuel = 0 then (k + 1).toNat else (k + 1).toNat + fuel) =
          k.toNat + (fuel + 1) := by
        split <;> omega
      rw [harith]
      have hne : ¬ (fuel + 1 = 0) := by omega
      rw [if_neg hne]
    · rw [ih2]
      simp only [List.length_append, List.length_cons, List.length_nil]
      omega

/-- When the configuration resolves, the level is non-empty, the year windows
are all computable, and every data-window query collects no period codes, the
scan walks the current year plus the full 30-year horizon — 31 windows in
total — and returns existing = none, next = none with years_checked = 31. -/
theorem scan_returns_none_of_empty_windows (env : ScanEnv) (pt : Str) (label : Int)
    (ns ne : Date)
    (hres : resolve_period_type env.dataSetElements = .ok pt)
    (hou : env.orgUnits ≠ [])
    (hbo : calendar_year_bounds env.libs (resolved_calendar env) env.today =
      some (label, (ns, ne)))
    (hb : ∀ j : Nat, j < 31 →
      (calendar_year_bounds_for env.libs (resolved_calendar env) (label - j)).isSome = true)
    (hf : ∀ s e : Date, fetch_periods_window env s e = []) :
    (latest_period_for_level env).1 =
      .ok ⟨env.de_uid, env.level, pt, resolved_calendar env, 31, none, none⟩ ∧
    (latest_period_for_level env).2.length = 31 := by
  obtain ⟨h1, h2⟩ := scanPrevYears_all_empty env (resolved_calendar env) label hb hf 30 1 1
    [(ns, ne)] (by omega) (by omega)
  rw [latest_period_for_level, hres]
  dsimp only
  rw [if_neg hou, hbo]
  dsimp only
  rw [hf ns ne, if_pos rfl]
  rcases hsc : scanPrevYears env (resolved_calendar env) label 30 1 1 [(ns, ne)]
    with ⟨r, log2⟩
  rw [hsc] at h1 h2
  simp only at h1 h2
  have hr : r = .ok (none, 31) := by
    rw [h1]
    rfl
  subst hr
  simp only [List.length_cons, List.length_nil] at h2
  exact ⟨rfl, by simpa using h2⟩


/-- C2 counterexample: with no data anywhere the scan queries 31 year
windows — the current year plus the 30-year horizon — not "at most 30 in
total"; years_checked ends at 31. -/
theorem C2_counterexample_31_windows :
    (latest_period_for_level envAllWindowsEmpty).2.length = 31 ∧
    ¬ ((latest_period_for_level envAllWindowsEmpty).2.length ≤ 30) ∧
    (latest_period_for_level envAllWindowsEmpty).1 =
      .ok ⟨envAllWindowsEmpty.de_uid, envAllWindowsEmpty.level, "MONTHLY".toList,
        resolved_calendar envAllWindowsEmpty, 31, none, none⟩ :=
  ⟨rfl, by decide, rfl⟩

/-- C2 (amended): for every collaborator behavior in which every data-window
query returns no period codes (configuration resolving, level non-empty,
year windows representable), the scan stops after the bounded horizon having
queried the current-year window plus 30 earlier-year windows — 31 in total —
and returns existing = none, next = none with years_checked = 31, the number
of years actually scanned. -/
theorem C2_exhausted_horizon (env : ScanEnv) (pt : Str) (label : Int) (ns ne : Date)
    (hres : resolve_period_type env.dataSetElements = .ok pt)
    (hou : env.orgUnits ≠ [])
    (hbo : calendar_year_bounds env.libs (resolved_calendar env) env.today =
      some (label, (ns, ne)))
    (hb : ∀ j : Nat, j < 31 →
      (calendar_year_bounds_for env.libs (resolved_calendar env) (label - j)).isSome = true)
    (hf : ∀ s e : Date, fetch_periods_window env s e = []) :
    (latest_period_for_level env).1 =
      .ok ⟨env.de_uid, env.level, pt, resolved_calendar env, 31, none, none⟩ ∧
    (latest_period_for_level env).2.length = 31 :=
  scan_returns_none_of_empty_windows env pt label ns ne hres hou hbo hb hf

/-- C2 witness: the amended theorem evaluated on the concrete all-empty
environment. -/
theorem C2_exhausted_horizon_witness :
    (latest_period_for_level envAllWindowsEmpty).1 =
      .ok ⟨envAllWindowsEmpty.de_uid, envAllWindowsEmpty.level, "MONTHLY".toList,
        resolved_calendar envAllWindowsEmpty, 31, none, none⟩ ∧
    (latest_period_for_level envAllWindowsEmpty).2.length = 31 :=
  C2_exhausted_horizon envAllWindowsEmpty ("MONTHLY".toList) 2025
    ⟨2025, 1, 1⟩ ⟨2025, 12, 31⟩ rfl (by decide) rfl (by decide) (fun s e => rfl)

-- ---------------------------------------------------------------------------
-- Claim C10 (confirmed)
-- ---------------------------------------------------------------------------

theorem filterMap_flatMap_comm {α β γ : Type} (l : List α) (f : α → List β)
    (g : β → Option γ) :
    (l.flatMap f).filterMap g = l.flatMap fun a => (f a).filterMap g := by
  induction l with
  | nil => rfl
  | cons a as ih =>
    simp only [List.flatMap_cons, List.filterMap_append, ih]

theorem fetch_eq_filterMap_allRows (env : ScanEnv) (s e : Date) :
    fetch_periods_window env s e = (allRows env s e).filterMap rowPeriod := by
  rw [fetch_periods_window, allRows, filterMap_flatMap_comm]

theorem rowPeriod_some_inv (r : DataRow) (p : Str) (h : rowPeriod r = some p) :
    r.period = some p ∧ p ≠ [] ∧ r.value ≠ none ∧ r.value ≠ some [] := by
  rcases r with ⟨ou, per, val⟩
  rw [rowPeriod] at h
  cases per with
  | none => exact absurd h (by simp)
  | some pe =>
    dsimp only at h
    split at h
    · exact absurd h (by simp)
    · next hpe =>
      cases val with
      | none => exact absurd h (by simp)
      | some v =>
        dsimp only at h
        split at h
        · exact absurd h (by simp)
        · next hv =>
          injection h with h2
          subst h2
          exact ⟨rfl, hpe, by simp, by simpa using hv⟩

theorem rowPeriod_none_of_null (r : DataRow) (h : r.value = none ∨ r.value = some []) :
    rowPeriod r = none := by
  rcases r with ⟨ou, per, val⟩
  rw [rowPeriod]
  cases per with
  | none => rfl
  | some pe =>
    dsimp only
    split
    · rfl
    · rcases h with h | h
      · simp only at h
        rw [h]
      · simp only at h
        rw [h]
        simp

/-- C10: a data point whose value is null or the empty string never counts
as existing data — every period code collected by a window query comes from a
row with a non-empty value; a window whose rows all carry null or empty
values collects nothing; and when every window's rows are all null or empty,
the scan exhausts the horizon and reports no existing period (it keeps
moving to earlier years instead of stopping). -/
theorem C10_null_values_never_count :
    (∀ (env : ScanEnv) (s e : Date) (p : Str), p ∈ fetch_periods_window env s e →
      ∃ r, r ∈ allRows env s e ∧ r.period = some p ∧ p ≠ [] ∧
        r.value ≠ none ∧ r.value ≠ some []) ∧
    (∀ (env : ScanEnv) (s e : Date),
      (∀ r ∈ allRows env s e, r.value = none ∨ r.value = some []) →
      fetch_periods_window env s e = []) ∧
    (∀ (env : ScanEnv) (pt : Str) (label : Int) (ns ne : Date),
      resolve_period_type env.dataSetElements = .ok pt →
      env.orgUnits ≠ [] →
      calendar_year_bounds env.libs (resolved_calendar env) env.today =
        some (label, (ns, ne)) →
      (∀ j : Nat, j < 31 →
        (calendar_year_bounds_for env.libs (resolved_calendar env) (label - j)).isSome = true) →
      (∀ (s e : Date), ∀ r ∈ allRows env s e, r.value = none ∨ r.value = some []) →
      (latest_period_for_level env).1 =
        .ok ⟨env.de_uid, env.level, pt, resolved_calendar env, 31, none, none⟩) := by
  have hb : ∀ (env : ScanEnv) (s e : Date),
      (∀ r ∈ allRows env s e, r.value = none ∨ r.value = some []) →
      fetch_periods_window env s e = [] := by
    intro env s e hnull
    rw [fetch_eq_filterMap_allRows]
    rw [List.filterMap_eq_nil_iff]
    intro r hr
    exact rowPeriod_none_of_null r (hnull r hr)
  refine ⟨?_, hb, ?_⟩
  · intro env s e p hp
    rw [fetch_eq_filterMap_allRows] at hp
    obtain ⟨r, hr, hrp⟩ := List.mem_filterMap.mp hp
    obtain ⟨h1, h2, h3, h4⟩ := rowPeriod_some_inv r p hrp
    exact ⟨r, hr, h1, h2, h3, h4⟩
  · intro env pt label ns ne hres hou hbo hbf hnull
    exact (scan_returns_none_of_empty_windows env pt label ns ne hres hou hbo hbf
      (fun s e => hb env s e (hnull s e))).1


/-- C10 witness: a window whose returned rows all have null or empty values
collects no period codes. -/
theorem C10_null_values_never_count_witness :
    fetch_periods_window envNullValues ⟨2025, 1, 1⟩ ⟨2025, 12, 31⟩ = [] :=
  C10_null_values_never_count.2.1 envNullValues ⟨2025, 1, 1⟩ ⟨2025, 12, 31⟩ (by decide)
